import Mathlib

/-!
Verification development for the hydros-python-sdk coordination core.

Shallow embedding of:
- the protocol data model (src/hydros_agent_sdk/protocol/models.py,
  src/hydros_agent_sdk/protocol/events.py, src/hydros_agent_sdk/protocol/commands.py),
- the state manager (src/hydros_agent_sdk/state_manager.py),
- the message filter (src/hydros_agent_sdk/message_filter.py),
- the coordination client's outbound eligibility check, retry loop and
  sibling-callback dispatch (src/hydros_agent_sdk/coordination_client.py),
- the tickable agent's tick handler (src/hydros_agent_sdk/agents/tickable_agent.py)
  and the twins agent's terminate path
  (src/hydros_agent_sdk/agents/twins_simulation_agent.py).

Conventions of the embedding:
- Python `Optional[T]` arguments become `Option T`; Python truthiness of a
  model object is `Option.isSome`, truthiness of a `str` is `≠ ""`.
- Python dicts are modelled as association lists (`dictInsert` replaces the
  binding of an existing key); Python sets as duplicate-free lists.  The
  embedded operations observe these only through membership and lookup, so
  iteration order is irrelevant to every claim.
- Wall-clock fields (`created_at`, `terminated_at` of `TaskState`) are not
  modelled: no embedded operation reads them.
- `Any`-typed JSON payload fields are modelled as `Json` values (with
  `Json.null` playing Python's `None` for `Optional[Any]` fields).
-/

/-- JSON values as produced by `json.loads` / consumed by `json.dumps`.
Numbers are modelled as rationals: every finite IEEE double is a rational and
Python's JSON round-trip of numbers is exact. -/
inductive Json where
  | null : Json
  | bool (b : Bool) : Json
  | num (q : Rat) : Json
  | str (s : String) : Json
  | arr (elems : List Json) : Json
  | obj (fields : List (String × Json)) : Json

/-- Task lifecycle status (state_manager.py, class TaskStatus). -/
inductive TaskStatus where
  | INITIALIZING
  | ACTIVE
  | TERMINATING
  | TERMINATED
deriving DecidableEq, Repr

/-- Agent business status (protocol/models.py, class AgentBizStatus). -/
inductive AgentBizStatus where
  | INIT
  | IDLE
  | ACTIVE
  | FAILED
deriving DecidableEq, Repr

/-- Agent drive mode (protocol/models.py, class AgentDriveMode). -/
inductive AgentDriveMode where
  | SIM_TICK_DRIVEN
  | EVENT_DRIVEN
  | PROACTIVE
deriving DecidableEq, Repr

/-- Command status (protocol/models.py, class CommandStatus). -/
inductive CommandStatus where
  | INIT
  | PROCESSING
  | SUCCEED
  | FAILED
deriving DecidableEq, Repr

/-- protocol/models.py, class Tenant. -/
structure Tenant where
  tenant_id : String
  tenant_name : String
deriving DecidableEq, Repr

/-- protocol/models.py, class BizScenario. -/
structure BizScenario where
  biz_scenario_id : String
  biz_scenario_name : String
deriving DecidableEq, Repr

/-- protocol/models.py, class Waterway. -/
structure Waterway where
  waterway_id : String
  waterway_name : String
deriving DecidableEq, Repr

/-- protocol/models.py, class SimulationContext. -/
structure SimulationContext where
  biz_scene_instance_id : String
  tenant : Option Tenant := none
  biz_scenario : Option BizScenario := none
  waterway : Option Waterway := none
  valid : Bool := true
deriving DecidableEq, Repr

/-- protocol/models.py, class HydroAgent. -/
structure HydroAgent where
  agent_code : String
  agent_type : String
  agent_name : Option String := none
  agent_configuration_url : String
deriving DecidableEq, Repr

/-- protocol/models.py, class HydroAgentInstance (extends HydroAgent; the
parent's fields are repeated here, pydantic inheritance flattened). -/
structure HydroAgentInstance where
  agent_code : String
  agent_type : String
  agent_name : Option String := none
  agent_configuration_url : String
  agent_id : String
  biz_scene_instance_id : String
  hydros_cluster_id : String
  hydros_node_id : String
  context : SimulationContext
  agent_biz_status : AgentBizStatus
  drive_mode : AgentDriveMode
deriving DecidableEq, Repr

/-- protocol/models.py, class TopHydroObject. -/
structure TopHydroObject where
  id : String
  type : String
  properties : List (String × Json) := []

/-- protocol/models.py, class TimeSeriesValue.  `time : Optional[Any]` is a
`Json` value (null = None). -/
structure TimeSeriesValue where
  step : Option Int := none
  time : Json := Json.null
  value : Option Rat := none

/-- protocol/models.py, class ObjectTimeSeries. -/
structure ObjectTimeSeries where
  time_series_name : Option String := none
  object_id : Option Int := none
  object_type : Option String := none
  object_name : Option String := none
  metrics_code : Option String := none
  time_series : List TimeSeriesValue := []

/-- protocol/events.py, class HydroEvent (= BaseHydroEvent; `created_time :
Optional[Any]` is a `Json` value, null = None). -/
structure HydroEvent where
  hydro_event_type : String
  hydro_event_id : Option String := none
  hydro_event_name : Option String := none
  context : Option SimulationContext := none
  created_time : Json := Json.null
  auto_schedule_at_step : Int := -1
  hydro_event_source_type : Option String := none
  hydro_event_source : Option String := none
  hydro_event_description : Option String := none

/-- protocol/events.py, class TimeSeriesDataChangedEvent: the base fields of
HydroEvent (its `hydro_event_type` is the literal
"HYDRO_EVENT_TIME_SERIES_DATA_UPDATED", not stored) plus the series list. -/
structure TimeSeriesDataChangedEvent where
  hydro_event_id : Option String := none
  hydro_event_name : Option String := none
  context : Option SimulationContext := none
  created_time : Json := Json.null
  auto_schedule_at_step : Int := -1
  hydro_event_source_type : Option String := none
  hydro_event_source : Option String := none
  hydro_event_description : Option String := none
  object_time_series : List ObjectTimeSeries := []

/-- state_manager.py, class TaskState.  `created_at` / `terminated_at`
(wall-clock datetimes, read by no embedded operation) are not modelled. -/
structure TaskState where
  context_id : String
  status : TaskStatus
  agent_ids : List String
deriving DecidableEq, Repr

/-- A Python `set[str]`: duplicate-free list, `add`. -/
def setAdd (l : List String) (x : String) : List String :=
  if l.contains x then l else x :: l

/-- A Python `set.discard`. -/
def setDiscard (l : List String) (x : String) : List String :=
  l.filter (fun y => y != x)

/-- A Python `dict.get` on an association list. -/
def dictGet {α : Type} : List (String × α) → String → Option α
  | [], _ => none
  | p :: rest, k => if p.1 = k then some p.2 else dictGet rest k

/-- A Python `d[k] = v`: replace the binding of `k` (position in the list is
not observed by any embedded operation). -/
def dictInsert {α : Type} (l : List (String × α)) (k : String) (v : α) :
    List (String × α) :=
  (k, v) :: l.filter (fun p => p.1 != k)

/-- A Python `del d[k]` (no-op when absent, matching the guarded delete). -/
def dictRemove {α : Type} (l : List (String × α)) (k : String) :
    List (String × α) :=
  l.filter (fun p => p.1 != k)

/-- state_manager.py, class AgentStateManager: the mutable state. -/
structure AgentStateManager where
  active_contexts : List String := []
  task_states : List (String × TaskState) := []
  agent_instances : List (String × HydroAgentInstance) := []
  local_agent_instances : List String := []
  hydros_cluster_id : Option String := none
  hydros_node_id : Option String := none
deriving DecidableEq, Repr

/-- AgentStateManager.__init__. -/
def AgentStateManager.init : AgentStateManager := {}

/-- AgentStateManager.set_cluster_id. -/
def AgentStateManager.set_cluster_id (s : AgentStateManager) (cluster_id : String) :
    AgentStateManager :=
  { s with hydros_cluster_id := some cluster_id }

/-- AgentStateManager.set_node_id. -/
def AgentStateManager.set_node_id (s : AgentStateManager) (node_id : String) :
    AgentStateManager :=
  { s with hydros_node_id := some node_id }

/-- AgentStateManager.add_active_context: guarded by truthiness of the context
object and of its `biz_scene_instance_id`. -/
def AgentStateManager.add_active_context (s : AgentStateManager)
    (context : Option SimulationContext) : AgentStateManager :=
  match context with
  | none => s
  | some c =>
    if c.biz_scene_instance_id = "" then s
    else { s with active_contexts := setAdd s.active_contexts c.biz_scene_instance_id }

/-- AgentStateManager.remove_active_context. -/
def AgentStateManager.remove_active_context (s : AgentStateManager)
    (context : Option SimulationContext) : AgentStateManager :=
  match context with
  | none => s
  | some c =>
    if c.biz_scene_instance_id = "" then s
    else { s with active_contexts := setDiscard s.active_contexts c.biz_scene_instance_id }

/-- AgentStateManager.has_active_context: false on a missing context or empty
id, else membership in the active set. -/
def AgentStateManager.has_active_context (s : AgentStateManager)
    (context : Option SimulationContext) : Bool :=
  match context with
  | none => false
  | some c =>
    if c.biz_scene_instance_id = "" then false
    else s.active_contexts.contains c.biz_scene_instance_id

/-- AgentStateManager.register_agent_instance: guarded by truthiness of the
agent and of its `agent_id`. -/
def AgentStateManager.register_agent_instance (s : AgentStateManager)
    (agent : Option HydroAgentInstance) : AgentStateManager :=
  match agent with
  | none => s
  | some a =>
    if a.agent_id = "" then s
    else { s with agent_instances := dictInsert s.agent_instances a.agent_id a }

/-- AgentStateManager.unregister_agent_instance: delete when present. -/
def AgentStateManager.unregister_agent_instance (s : AgentStateManager)
    (agent_id : String) : AgentStateManager :=
  { s with agent_instances := dictRemove s.agent_instances agent_id }

/-- AgentStateManager.get_agent_instance. -/
def AgentStateManager.get_agent_instance (s : AgentStateManager)
    (agent_id : String) : Option HydroAgentInstance :=
  dictGet s.agent_instances agent_id

/-- AgentStateManager.update_agent_status: update the stored instance's
`agent_biz_status` when the agent is registered, warn-and-skip otherwise. -/
def AgentStateManager.update_agent_status (s : AgentStateManager)
    (agent_id : String) (status : AgentBizStatus) : AgentStateManager :=
  match dictGet s.agent_instances agent_id with
  | none => s
  | some a =>
    { s with agent_instances := dictInsert s.agent_instances agent_id { a with agent_biz_status := status } }

/-- AgentStateManager.add_local_agent: guarded by truthiness of the agent and
of its `agent_id`. -/
def AgentStateManager.add_local_agent (s : AgentStateManager)
    (agent_instance : Option HydroAgentInstance) : AgentStateManager :=
  match agent_instance with
  | none => s
  | some a =>
    if a.agent_id = "" then s
    else { s with local_agent_instances := setAdd s.local_agent_instances a.agent_id }

/-- AgentStateManager.remove_local_agent. -/
def AgentStateManager.remove_local_agent (s : AgentStateManager)
    (agent_instance : Option HydroAgentInstance) : AgentStateManager :=
  match agent_instance with
  | none => s
  | some a =>
    if a.agent_id = "" then s
    else { s with local_agent_instances := setDiscard s.local_agent_instances a.agent_id }

/-- AgentStateManager.is_local_agent: explicit registration first; a node-id
comparison applies as fallback only when the manager's node id is truthy, and
it answers true only for an instance with an empty (falsy) `agent_id`. -/
def AgentStateManager.is_local_agent (s : AgentStateManager)
    (agent_instance : Option HydroAgentInstance) : Bool :=
  match agent_instance with
  | none => false
  | some a =>
    if s.local_agent_instances.contains a.agent_id then true
    else
      match s.hydros_node_id with
      | some nid =>
        if nid != "" && a.hydros_node_id == nid then
          if a.agent_id != "" then false else true
        else false
      | none => false

/-- AgentStateManager.is_remote_agent: false on a missing instance, else the
negation of is_local_agent. -/
def AgentStateManager.is_remote_agent (s : AgentStateManager)
    (agent_instance : Option HydroAgentInstance) : Bool :=
  match agent_instance with
  | none => false
  | some a => !(s.is_local_agent (some a))

/-- AgentStateManager.init_task: create the TaskState (INITIALIZING), register
every truthy agent with a truthy id, add the active context, then set the
stored TaskState's status to ACTIVE (Python mutates the stored object in
place; the embedding stores the final ACTIVE record). -/
def AgentStateManager.init_task (s : AgentStateManager)
    (context : Option SimulationContext)
    (agents : Option (List HydroAgentInstance)) : AgentStateManager :=
  match context with
  | none => s
  | some c =>
    if c.biz_scene_instance_id = "" then s
    else
      let context_id := c.biz_scene_instance_id
      let agent_ids :=
        match agents with
        | some l => (l.filter (fun a => a.agent_id != "")).map (fun a => a.agent_id)
        | none => []
      let ts0 : TaskState := ⟨context_id, TaskStatus.INITIALIZING, agent_ids⟩
      let s1 := { s with task_states := dictInsert s.task_states context_id ts0 }
      let s2 :=
        match agents with
        | some l => l.foldl (fun t a => AgentStateManager.register_agent_instance t (some a)) s1
        | none => s1
      let s3 := s2.add_active_context (some c)
      let ts1 : TaskState := ⟨context_id, TaskStatus.ACTIVE, agent_ids⟩
      { s3 with task_states := dictInsert s3.task_states context_id ts1 }

/-- AgentStateManager.terminate_task: set the stored TaskState (when present)
to TERMINATING, remove the active context, then mark it TERMINATED (the
embedding stores the final TERMINATED record). -/
def AgentStateManager.terminate_task (s : AgentStateManager)
    (context : Option SimulationContext) : AgentStateManager :=
  match context with
  | none => s
  | some c =>
    if c.biz_scene_instance_id = "" then s
    else
      let context_id := c.biz_scene_instance_id
      let s1 :=
        match dictGet s.task_states context_id with
        | some ts =>
          let ts1 : TaskState := ⟨ts.context_id, TaskStatus.TERMINATED, ts.agent_ids⟩
          { s with task_states := dictInsert s.task_states context_id ts1 }
        | none => s
      s1.remove_active_context (some c)

/-- AgentStateManager.get_task_state. -/
def AgentStateManager.get_task_state (s : AgentStateManager) (context_id : String) :
    Option TaskState :=
  dictGet s.task_states context_id

/-- AgentStateManager.clear: contexts, tasks and agents; the cluster and node
ids are kept (the Python method does not touch them). -/
def AgentStateManager.clear (s : AgentStateManager) : AgentStateManager :=
  { s with active_contexts := [], task_states := [], agent_instances := [], local_agent_instances := [] }

/-- protocol/commands.py constant SIMCMD_TASK_INIT_REQUEST. -/
def SIMCMD_TASK_INIT_REQUEST : String := "task_init_request"

/-- protocol/commands.py constant SIMCMD_TASK_INIT_RESPONSE. -/
def SIMCMD_TASK_INIT_RESPONSE : String := "task_init_response"

/-- protocol/commands.py constant SIMCMD_TASK_TERMINATE_REQUEST. -/
def SIMCMD_TASK_TERMINATE_REQUEST : String := "task_terminate_request"

/-- protocol/commands.py constant SIMCMD_TASK_TERMINATE_RESPONSE. -/
def SIMCMD_TASK_TERMINATE_RESPONSE : String := "task_terminate_response"

/-- protocol/commands.py constant SIMCMD_TICK_CMD_REQUEST. -/
def SIMCMD_TICK_CMD_REQUEST : String := "tick_cmd_request"

/-- protocol/commands.py constant SIMCMD_TICK_CMD_RESPONSE. -/
def SIMCMD_TICK_CMD_RESPONSE : String := "tick_cmd_response"

/-- protocol/commands.py constant SIMCMD_TIME_SERIES_CALCULATION_REQUEST. -/
def SIMCMD_TIME_SERIES_CALCULATION_REQUEST : String := "calculation_request"

/-- protocol/commands.py constant SIMCMD_TIME_SERIES_CALCULATION_RESPONSE. -/
def SIMCMD_TIME_SERIES_CALCULATION_RESPONSE : String := "calculation_response"

/-- protocol/commands.py constant SIMCMD_TIME_SERIES_DATA_UPDATE_REQUEST. -/
def SIMCMD_TIME_SERIES_DATA_UPDATE_REQUEST : String := "time_series_data_update_request"

/-- protocol/commands.py constant SIMCMD_TIME_SERIES_DATA_UPDATE_RESPONSE. -/
def SIMCMD_TIME_SERIES_DATA_UPDATE_RESPONSE : String := "time_series_data_update_response"

/-- protocol/commands.py constant SIMCMD_AGENT_INSTANCE_STATUS_REPORT. -/
def SIMCMD_AGENT_INSTANCE_STATUS_REPORT : String := "report_agent_instance_status"

/-- protocol/commands.py constant SIMCMD_IDENTIFIED_PARAMS_REPORT. -/
def SIMCMD_IDENTIFIED_PARAMS_REPORT : String := "identified_params_report"

/-- protocol/commands.py constant SIMCMD_HYDRO_ALERT_REPORT. -/
def SIMCMD_HYDRO_ALERT_REPORT : String := "report_hydro_alert"

/-- protocol/commands.py, class SimTaskInitRequest (its `command_type` is the
literal "task_init_request", kept by the union tag, not stored). -/
structure SimTaskInitRequest where
  command_id : String
  context : SimulationContext
  broadcast : Bool := false
  agent_list : List HydroAgent
  biz_scene_configuration_url : Option String := none

/-- protocol/commands.py, class SimTaskInitResponse. -/
structure SimTaskInitResponse where
  command_id : String
  context : SimulationContext
  broadcast : Bool := false
  command_status : Option CommandStatus := none
  error_code : Option String := none
  error_message : Option String := none
  source_agent_instance : HydroAgentInstance
  created_agent_instances : List HydroAgentInstance
  managed_top_objects : List (String × List TopHydroObject)

/-- protocol/commands.py, class SimTaskTerminateRequest. -/
structure SimTaskTerminateRequest where
  command_id : String
  context : SimulationContext
  broadcast : Bool := false
  reason : Option String := none

/-- protocol/commands.py, class SimTaskTerminateResponse. -/
structure SimTaskTerminateResponse where
  command_id : String
  context : SimulationContext
  broadcast : Bool := false
  command_status : Option CommandStatus := none
  error_code : Option String := none
  error_message : Option String := none
  source_agent_instance : HydroAgentInstance

/-- protocol/commands.py, class TickCmdRequest. -/
structure TickCmdRequest where
  command_id : String
  context : SimulationContext
  broadcast : Bool := false
  step : Int

/-- protocol/commands.py, class TickCmdResponse. -/
structure TickCmdResponse where
  command_id : String
  context : SimulationContext
  broadcast : Bool := false
  command_status : Option CommandStatus := none
  error_code : Option String := none
  error_message : Option String := none
  source_agent_instance : HydroAgentInstance

/-- protocol/commands.py, class TimeSeriesCalculationRequest. -/
structure TimeSeriesCalculationRequest where
  command_id : String
  context : SimulationContext
  broadcast : Bool := false
  target_agent_instance : HydroAgentInstance
  hydro_event : HydroEvent

/-- protocol/commands.py, class TimeSeriesCalculationResponse. -/
structure TimeSeriesCalculationResponse where
  command_id : String
  context : SimulationContext
  broadcast : Bool := false
  command_status : Option CommandStatus := none
  error_code : Option String := none
  error_message : Option String := none
  source_agent_instance : HydroAgentInstance
  hydro_event : HydroEvent
  object_time_series_list : List ObjectTimeSeries

/-- protocol/commands.py, class TimeSeriesDataUpdateRequest. -/
structure TimeSeriesDataUpdateRequest where
  command_id : String
  context : SimulationContext
  broadcast : Bool := false
  time_series_data_changed_event : TimeSeriesDataChangedEvent

/-- protocol/commands.py, class TimeSeriesDataUpdateResponse. -/
structure TimeSeriesDataUpdateResponse where
  command_id : String
  context : SimulationContext
  broadcast : Bool := false
  command_status : Option CommandStatus := none
  error_code : Option String := none
  error_message : Option String := none
  source_agent_instance : HydroAgentInstance

/-- protocol/commands.py, class AgentInstanceStatusReport (a direct SimCommand
subclass: not a SimCoordinationResponse). -/
structure AgentInstanceStatusReport where
  command_id : String
  context : SimulationContext
  broadcast : Bool := false
  source_agent_instance : HydroAgentInstance
  created_state : String
  init_result : Option (List (String × Json)) := none

/-- protocol/commands.py, class ParameterIdentifiedReport (a direct SimCommand
subclass). -/
structure ParameterIdentifiedReport where
  command_id : String
  context : SimulationContext
  broadcast : Bool := false
  source_agent_instance : HydroAgentInstance
  recognized_params : List (List (String × Json))

/-- protocol/commands.py, class HydroAlertUpdatedReport (a direct SimCommand
subclass). -/
structure HydroAlertUpdatedReport where
  command_id : String
  context : SimulationContext
  broadcast : Bool := false
  source_agent_instance : HydroAgentInstance
  hydro_alert_event : List (String × Json)

/-- protocol/commands.py, CommandUnion: the discriminated union of every
command variant. -/
inductive SimCommandV where
  | taskInitRequest (c : SimTaskInitRequest)
  | taskInitResponse (c : SimTaskInitResponse)
  | taskTerminateRequest (c : SimTaskTerminateRequest)
  | taskTerminateResponse (c : SimTaskTerminateResponse)
  | tickCmdRequest (c : TickCmdRequest)
  | tickCmdResponse (c : TickCmdResponse)
  | timeSeriesCalculationRequest (c : TimeSeriesCalculationRequest)
  | timeSeriesCalculationResponse (c : TimeSeriesCalculationResponse)
  | timeSeriesDataUpdateRequest (c : TimeSeriesDataUpdateRequest)
  | timeSeriesDataUpdateResponse (c : TimeSeriesDataUpdateResponse)
  | agentInstanceStatusReport (c : AgentInstanceStatusReport)
  | parameterIdentifiedReport (c : ParameterIdentifiedReport)
  | hydroAlertUpdatedReport (c : HydroAlertUpdatedReport)

/-- The `command_type` field of each variant (the pydantic Literal). -/
def SimCommandV.command_type : SimCommandV → String
  | .taskInitRequest _ => SIMCMD_TASK_INIT_REQUEST
  | .taskInitResponse _ => SIMCMD_TASK_INIT_RESPONSE
  | .taskTerminateRequest _ => SIMCMD_TASK_TERMINATE_REQUEST
  | .taskTerminateResponse _ => SIMCMD_TASK_TERMINATE_RESPONSE
  | .tickCmdRequest _ => SIMCMD_TICK_CMD_REQUEST
  | .tickCmdResponse _ => SIMCMD_TICK_CMD_RESPONSE
  | .timeSeriesCalculationRequest _ => SIMCMD_TIME_SERIES_CALCULATION_REQUEST
  | .timeSeriesCalculationResponse _ => SIMCMD_TIME_SERIES_CALCULATION_RESPONSE
  | .timeSeriesDataUpdateRequest _ => SIMCMD_TIME_SERIES_DATA_UPDATE_REQUEST
  | .timeSeriesDataUpdateResponse _ => SIMCMD_TIME_SERIES_DATA_UPDATE_RESPONSE
  | .agentInstanceStatusReport _ => SIMCMD_AGENT_INSTANCE_STATUS_REPORT
  | .parameterIdentifiedReport _ => SIMCMD_IDENTIFIED_PARAMS_REPORT
  | .hydroAlertUpdatedReport _ => SIMCMD_HYDRO_ALERT_REPORT

/-- The `command_id` field (declared on HydroCmd, present in every variant). -/
def SimCommandV.command_id : SimCommandV → String
  | .taskInitRequest c => c.command_id
  | .taskInitResponse c => c.command_id
  | .taskTerminateRequest c => c.command_id
  | .taskTerminateResponse c => c.command_id
  | .tickCmdRequest c => c.command_id
  | .tickCmdResponse c => c.command_id
  | .timeSeriesCalculationRequest c => c.command_id
  | .timeSeriesCalculationResponse c => c.command_id
  | .timeSeriesDataUpdateRequest c => c.command_id
  | .timeSeriesDataUpdateResponse c => c.command_id
  | .agentInstanceStatusReport c => c.command_id
  | .parameterIdentifiedReport c => c.command_id
  | .hydroAlertUpdatedReport c => c.command_id

/-- The `context` field (declared on SimCommand, present in every variant). -/
def SimCommandV.context : SimCommandV → SimulationContext
  | .taskInitRequest c => c.context
  | .taskInitResponse c => c.context
  | .taskTerminateRequest c => c.context
  | .taskTerminateResponse c => c.context
  | .tickCmdRequest c => c.context
  | .tickCmdResponse c => c.context
  | .timeSeriesCalculationRequest c => c.context
  | .timeSeriesCalculationResponse c => c.context
  | .timeSeriesDataUpdateRequest c => c.context
  | .timeSeriesDataUpdateResponse c => c.context
  | .agentInstanceStatusReport c => c.context
  | .parameterIdentifiedReport c => c.context
  | .hydroAlertUpdatedReport c => c.context

/-- The `source_agent_instance` field: carried by every SimCoordinationResponse
subclass and by the three report classes; requests have none. -/
def SimCommandV.source_agent_instance : SimCommandV → Option HydroAgentInstance
  | .taskInitRequest _ => none
  | .taskInitResponse c => some c.source_agent_instance
  | .taskTerminateRequest _ => none
  | .taskTerminateResponse c => some c.source_agent_instance
  | .tickCmdRequest _ => none
  | .tickCmdResponse c => some c.source_agent_instance
  | .timeSeriesCalculationRequest _ => none
  | .timeSeriesCalculationResponse c => some c.source_agent_instance
  | .timeSeriesDataUpdateRequest _ => none
  | .timeSeriesDataUpdateResponse c => some c.source_agent_instance
  | .agentInstanceStatusReport c => some c.source_agent_instance
  | .parameterIdentifiedReport c => some c.source_agent_instance
  | .hydroAlertUpdatedReport c => some c.source_agent_instance

/-- `isinstance(cmd, SimTaskInitRequest)`. -/
def SimCommandV.isSimTaskInitRequest : SimCommandV → Bool
  | .taskInitRequest _ => true
  | _ => false

/-- `isinstance(cmd, SimCoordinationRequest)`: the five request classes extend
SimCoordinationRequest in commands.py. -/
def SimCommandV.isSimCoordinationRequest : SimCommandV → Bool
  | .taskInitRequest _ => true
  | .taskTerminateRequest _ => true
  | .tickCmdRequest _ => true
  | .timeSeriesCalculationRequest _ => true
  | .timeSeriesDataUpdateRequest _ => true
  | _ => false

/-- `isinstance(cmd, SimCoordinationResponse)`: the five response classes
extend SimCoordinationResponse in commands.py; the three report classes do
not. -/
def SimCommandV.isSimCoordinationResponse : SimCommandV → Bool
  | .taskInitResponse _ => true
  | .taskTerminateResponse _ => true
  | .tickCmdResponse _ => true
  | .timeSeriesCalculationResponse _ => true
  | .timeSeriesDataUpdateResponse _ => true
  | _ => false

/-- `isinstance(cmd, AgentInstanceStatusReport)`. -/
def SimCommandV.isAgentInstanceStatusReport : SimCommandV → Bool
  | .agentInstanceStatusReport _ => true
  | _ => false

/-- `isinstance(cmd, SimTaskInitResponse)`. -/
def SimCommandV.isSimTaskInitResponse : SimCommandV → Bool
  | .taskInitResponse _ => true
  | _ => false

/-- MessageFilter.is_active_to_task_sim_command (message_filter.py): a
SimTaskInitRequest is always accepted; otherwise the command's context (every
SimCommand carries one, and a pydantic model object is always truthy) must be
an active context. -/
def MessageFilter.is_active_to_task_sim_command (context_manager : AgentStateManager)
    (sim_command : SimCommandV) : Bool :=
  if sim_command.isSimTaskInitRequest then true
  else context_manager.has_active_context (some sim_command.context)

/-- MessageFilter.is_received (message_filter.py): any SimCoordinationRequest
is received; an AgentInstanceStatusReport or SimTaskInitResponse only when its
source agent is remote; every other type is filtered out. -/
def MessageFilter.is_received (context_manager : AgentStateManager)
    (sim_command : SimCommandV) : Bool :=
  if sim_command.isSimCoordinationRequest then true
  else if sim_command.isAgentInstanceStatusReport then
    context_manager.is_remote_agent sim_command.source_agent_instance
  else if sim_command.isSimTaskInitResponse then
    context_manager.is_remote_agent sim_command.source_agent_instance
  else false

/-- MessageFilter.should_process_message (message_filter.py): both filters must
pass. -/
def MessageFilter.should_process_message (context_manager : AgentStateManager)
    (sim_command : SimCommandV) : Bool :=
  if !(MessageFilter.is_active_to_task_sim_command context_manager sim_command) then false
  else if !(MessageFilter.is_received context_manager sim_command) then false
  else true

/-- SimCoordinationClient._should_send (coordination_client.py): requests are
never sent; a SimCoordinationResponse or an AgentInstanceStatusReport is sent
only when its source agent is local; everything else is not sent. -/
def SimCoordinationClient.should_send (state_manager : AgentStateManager)
    (command : SimCommandV) : Bool :=
  if command.isSimCoordinationRequest then false
  else if command.isSimCoordinationResponse then
    state_manager.is_local_agent command.source_agent_instance
  else if command.isAgentInstanceStatusReport then
    state_manager.is_local_agent command.source_agent_instance
  else false

/-- The outbound eligibility predicate as the spec of claim C2 words it: the
command is a Response or a Report (any of the three report variants) and its
source agent is local.  Written from the claim, for comparison with
`SimCoordinationClient.should_send`, the definition from the source. -/
def claimC2_spec_should_send (state_manager : AgentStateManager)
    (command : SimCommandV) : Bool :=
  (command.isSimCoordinationResponse ||
    (match command with
     | .agentInstanceStatusReport _ => true
     | .parameterIdentifiedReport _ => true
     | .hydroAlertUpdatedReport _ => true
     | _ => false)) &&
  state_manager.is_local_agent command.source_agent_instance

/-- The observable outcome of one SimCoordinationClient._send_with_retry call
(coordination_client.py): how many publish attempts ran, the sleeps between
them (milliseconds), and whether the call re-raised the last publish error. -/
structure RetryTrace where
  attempts : Nat
  delays : List Nat
  raised : Bool
deriving DecidableEq, Repr

/-- One iteration of the `while attempt <= max_retry_count` loop of
_send_with_retry, with `publish_ok i` the outcome of the publish on attempt
`i` (counting from 0) and `fuel = max_retry_count + 1 - attempt` the number of
loop iterations still permitted.  On failure the attempt counter is
incremented; past the budget the exception is re-raised, otherwise the loop
sleeps `base_retry_delay_ms * 2 ^ attempt` ms (with the incremented counter)
and retries. -/
def SimCoordinationClient.retry_go (publish_ok : Nat → Bool)
    (max_retry_count base_retry_delay_ms : Nat) : Nat → Nat → RetryTrace
  | _, 0 => ⟨0, [], false⟩
  | attempt, fuel + 1 =>
    if publish_ok attempt then ⟨1, [], false⟩
    else if attempt + 1 > max_retry_count then ⟨1, [], true⟩
    else
      let delay_ms := base_retry_delay_ms * 2 ^ (attempt + 1)
      let rest := SimCoordinationClient.retry_go publish_ok max_retry_count
        base_retry_delay_ms (attempt + 1) fuel
      ⟨rest.attempts + 1, delay_ms :: rest.delays, rest.raised⟩

/-- SimCoordinationClient._send_with_retry: the loop starts at attempt 0 and
runs while `attempt ≤ max_retry_count`, i.e. at most `max_retry_count + 1`
iterations. -/
def SimCoordinationClient.send_with_retry (publish_ok : Nat → Bool)
    (max_retry_count base_retry_delay_ms : Nat) : RetryTrace :=
  SimCoordinationClient.retry_go publish_ok max_retry_count base_retry_delay_ms
    0 (max_retry_count + 1)

/-- SimCoordinationCallback.is_remote_agent (coordination_callback.py): the
default implementation returns False for every instance. -/
def SimCoordinationCallback.is_remote_agent (_agent_instance : HydroAgentInstance) :
    Bool :=
  false

/-- SimCoordinationClient._handle_task_init_response (coordination_client.py):
the sibling-created callback is invoked (result `some response`) exactly when
`callback.is_remote_agent(response.source_agent_instance)` is true. -/
def SimCoordinationClient.handle_task_init_response
    (callback_is_remote_agent : HydroAgentInstance → Bool)
    (response : SimTaskInitResponse) : Option SimTaskInitResponse :=
  if callback_is_remote_agent response.source_agent_instance then some response
  else none

/-- SimCoordinationClient._handle_agent_status_report (coordination_client.py):
the sibling-status-updated callback is invoked (result `some report`) exactly
when `callback.is_remote_agent(report.source_agent_instance)` is true. -/
def SimCoordinationClient.handle_agent_status_report
    (callback_is_remote_agent : HydroAgentInstance → Bool)
    (report : AgentInstanceStatusReport) : Option AgentInstanceStatusReport :=
  if callback_is_remote_agent report.source_agent_instance then some report
  else none

/-- A metrics dictionary as returned by on_tick_simulation
(`Dict[str, Any]`). -/
def MetricsDict : Type := List (String × Json)

/-- TickableAgent.on_tick (agents/tickable_agent.py).  `self` is the agent (a
BaseHydroAgent extends HydroAgentInstance).  `sim_outcome` is the behaviour of
the subclass hook `on_tick_simulation`: `.error ()` when it raises, `.ok m`
when it returns `m` (`none` = Python None).  `send_ok` is whether
`send_metrics_batch` (reached only for a truthy, i.e. non-empty, list)
returns without raising.  Any exception inside the `try` block is caught and
turned into a FAILED TickCmdResponse carrying the request's command_id and
the agent's context; the normal path returns the same response with SUCCEED. -/
def TickableAgent.on_tick (self : HydroAgentInstance) (request : TickCmdRequest)
    (sim_outcome : Except Unit (Option (List MetricsDict))) (send_ok : Bool) :
    TickCmdResponse :=
  let failed : TickCmdResponse :=
    { context := self.context, command_id := request.command_id,
      command_status := some CommandStatus.FAILED, source_agent_instance := self,
      broadcast := false }
  match sim_outcome with
  | .error _ => failed
  | .ok metrics_list =>
    let metrics_truthy : Bool :=
      match metrics_list with
      | some (_ :: _) => true
      | _ => false
    if metrics_truthy && !send_ok then failed
    else
      { context := self.context, command_id := request.command_id,
        command_status := some CommandStatus.SUCCEED, source_agent_instance := self,
        broadcast := false }

/-- The state-manager effect of TwinsSimulationAgent.on_terminate
(agents/twins_simulation_agent.py): `state_manager.terminate_task(self.context)`
then `state_manager.remove_local_agent(self)` (the in-agent model cleanup and
the response construction touch no state-manager state). -/
def TwinsSimulationAgent.on_terminate_state (s : AgentStateManager)
    (self : HydroAgentInstance) : AgentStateManager :=
  (s.terminate_task (some self.context)).remove_local_agent (some self)

/-- The mutating operations of AgentStateManager, for reasoning about every
reachable state (each constructor is one public method with its arguments). -/
inductive SMOp where
  | set_cluster_id (cluster_id : String)
  | set_node_id (node_id : String)
  | add_active_context (context : Option SimulationContext)
  | remove_active_context (context : Option SimulationContext)
  | register_agent_instance (agent : Option HydroAgentInstance)
  | unregister_agent_instance (agent_id : String)
  | update_agent_status (agent_id : String) (status : AgentBizStatus)
  | add_local_agent (agent_instance : Option HydroAgentInstance)
  | remove_local_agent (agent_instance : Option HydroAgentInstance)
  | init_task (context : Option SimulationContext)
      (agents : Option (List HydroAgentInstance))
  | terminate_task (context : Option SimulationContext)
  | clear

/-- Apply one operation to a state. -/
def SMOp.apply (s : AgentStateManager) : SMOp → AgentStateManager
  | .set_cluster_id cid => s.set_cluster_id cid
  | .set_node_id nid => s.set_node_id nid
  | .add_active_context c => s.add_active_context c
  | .remove_active_context c => s.remove_active_context c
  | .register_agent_instance a => s.register_agent_instance a
  | .unregister_agent_instance aid => s.unregister_agent_instance aid
  | .update_agent_status aid st => s.update_agent_status aid st
  | .add_local_agent a => s.add_local_agent a
  | .remove_local_agent a => s.remove_local_agent a
  | .init_task c agents => s.init_task c agents
  | .terminate_task c => s.terminate_task c
  | .clear => s.clear

/-- Run a sequence of operations from a state. -/
def SMOp.runFrom (s : AgentStateManager) (ops : List SMOp) : AgentStateManager :=
  ops.foldl SMOp.apply s

/-- Run a sequence of operations from the freshly constructed manager. -/
def SMOp.run (ops : List SMOp) : AgentStateManager :=
  SMOp.runFrom AgentStateManager.init ops

/-- Whether an operation initializes (adds to the active set) the context id
`cid`: only `add_active_context` and `init_task` ever add to it. -/
def SMOp.initializes (op : SMOp) (cid : String) : Bool :=
  match op with
  | .add_active_context (some c) => c.biz_scene_instance_id == cid
  | .init_task (some c) _ => c.biz_scene_instance_id == cid
  | _ => false

/-- Whether an operation is one of the task-lifecycle / registry operations,
i.e. not a direct toggle of the active-context set. -/
def SMOp.isLifecycle : SMOp → Bool
  | .add_active_context _ => false
  | .remove_active_context _ => false
  | _ => true



theorem mem_setAdd {l : List String} {x a : String} :
    a ∈ setAdd l x ↔ a = x ∨ a ∈ l := by
  unfold setAdd
  split
  · rename_i h
    constructor
    · exact fun ha => Or.inr ha
    · rintro (rfl | ha)
      · simpa using h
      · exact ha
  · simp [or_comm]

theorem mem_setDiscard {l : List String} {x a : String} :
    a ∈ setDiscard l x ↔ a ∈ l ∧ a ≠ x := by
  simp [setDiscard]

theorem setDiscard_setDiscard (l : List String) (x : String) :
    setDiscard (setDiscard l x) x = setDiscard l x := by
  simp [setDiscard, List.filter_filter]

theorem dictGet_dictInsert_self {α : Type} (l : List (String × α)) (k : String) (v : α) :
    dictGet (dictInsert l k v) k = some v := by
  simp [dictInsert, dictGet]

theorem dictGet_filter_ne {α : Type} (l : List (String × α)) {k k' : String}
    (h : k' ≠ k) : dictGet (l.filter (fun p => p.1 != k)) k' = dictGet l k' := by
  induction l with
  | nil => rfl
  | cons p rest ih =>
    by_cases hp : p.1 = k
    · have h1 : (p.1 != k) = false := by simp [hp]
      have h2 : ¬(p.1 = k') := fun hk => h (hk.symm.trans hp)
      simp only [List.filter_cons, h1, Bool.false_eq_true, if_false, ih]
      rw [dictGet, if_neg h2]
    · have h1 : (p.1 != k) = true := by simp [hp]
      simp only [List.filter_cons, h1, if_true]
      rw [dictGet, dictGet]
      by_cases hk : p.1 = k'
      · rw [if_pos hk, if_pos hk]
      · rw [if_neg hk, if_neg hk, ih]

theorem dictGet_dictInsert_ne {α : Type} (l : List (String × α)) {k k' : String}
    (v : α) (h : k' ≠ k) : dictGet (dictInsert l k v) k' = dictGet l k' := by
  unfold dictInsert
  rw [dictGet, if_neg (fun hh : k = k' => h hh.symm)]
  exact dictGet_filter_ne l h

theorem dictInsert_dictInsert {α : Type} (l : List (String × α)) (k : String) (v w : α) :
    dictInsert (dictInsert l k v) k w = dictInsert l k w := by
  simp [dictInsert, List.filter_filter]

/-- register_agent_instance leaves the active-context set unchanged. -/
theorem register_active (s : AgentStateManager) (a : Option HydroAgentInstance) :
    (s.register_agent_instance a).active_contexts = s.active_contexts := by
  cases a with
  | none => rfl
  | some a =>
    by_cases h : a.agent_id = "" <;>
      simp [AgentStateManager.register_agent_instance, h]

/-- register_agent_instance leaves the task-state map unchanged. -/
theorem register_states (s : AgentStateManager) (a : Option HydroAgentInstance) :
    (s.register_agent_instance a).task_states = s.task_states := by
  cases a with
  | none => rfl
  | some a =>
    by_cases h : a.agent_id = "" <;>
      simp [AgentStateManager.register_agent_instance, h]

/-- register_agent_instance leaves the local-agent set unchanged. -/
theorem register_locals (s : AgentStateManager) (a : Option HydroAgentInstance) :
    (s.register_agent_instance a).local_agent_instances = s.local_agent_instances := by
  cases a with
  | none => rfl
  | some a =>
    by_cases h : a.agent_id = "" <;>
      simp [AgentStateManager.register_agent_instance, h]

/-- register_agent_instance leaves the node id unchanged. -/
theorem register_node (s : AgentStateManager) (a : Option HydroAgentInstance) :
    (s.register_agent_instance a).hydros_node_id = s.hydros_node_id := by
  cases a with
  | none => rfl
  | some a =>
    by_cases h : a.agent_id = "" <;>
      simp [AgentStateManager.register_agent_instance, h]

/-- Registering a list of agents leaves the active-context set unchanged. -/
theorem register_foldl_active (l : List HydroAgentInstance) (s : AgentStateManager) :
    (l.foldl (fun t a => AgentStateManager.register_agent_instance t (some a)) s).active_contexts = s.active_contexts := by
  induction l generalizing s with
  | nil => rfl
  | cons a rest ih =>
    simp only [List.foldl_cons]
    rw [ih, register_active]

/-- Registering a list of agents leaves the task-state map unchanged. -/
theorem register_foldl_states (l : List HydroAgentInstance) (s : AgentStateManager) :
    (l.foldl (fun t a => AgentStateManager.register_agent_instance t (some a)) s).task_states = s.task_states := by
  induction l generalizing s with
  | nil => rfl
  | cons a rest ih =>
    simp only [List.foldl_cons]
    rw [ih, register_states]

/-- Registering a list of agents leaves the local-agent set unchanged. -/
theorem register_foldl_locals (l : List HydroAgentInstance) (s : AgentStateManager) :
    (l.foldl (fun t a => AgentStateManager.register_agent_instance t (some a)) s).local_agent_instances = s.local_agent_instances := by
  induction l generalizing s with
  | nil => rfl
  | cons a rest ih =>
    simp only [List.foldl_cons]
    rw [ih, register_locals]

/-- Registering a list of agents leaves the node id unchanged. -/
theorem register_foldl_node (l : List HydroAgentInstance) (s : AgentStateManager) :
    (l.foldl (fun t a => AgentStateManager.register_agent_instance t (some a)) s).hydros_node_id = s.hydros_node_id := by
  induction l generalizing s with
  | nil => rfl
  | cons a rest ih =>
    simp only [List.foldl_cons]
    rw [ih, register_node]

/-- The ids registered by init_task for a list of agents. -/
def initAgentIds (agents : Option (List HydroAgentInstance)) : List String :=
  match agents with
  | some l => (l.filter (fun a => a.agent_id != "")).map (fun a => a.agent_id)
  | none => []

/-- init_task on a valid context: the active set gains the context id. -/
theorem init_task_active (s : AgentStateManager) (c : SimulationContext)
    (agents : Option (List HydroAgentInstance)) (h : ¬c.biz_scene_instance_id = "") :
    (s.init_task (some c) agents).active_contexts =
      setAdd s.active_contexts c.biz_scene_instance_id := by
  simp only [AgentStateManager.init_task]
  rw [if_neg h]
  cases agents with
  | none =>
    simp only [AgentStateManager.add_active_context]
    rw [if_neg h]
  | some l =>
    simp only [AgentStateManager.add_active_context]
    rw [if_neg h]
    simp only [register_foldl_active]

/-- init_task on a valid context: the task-state map gains an ACTIVE record
under the context id. -/
theorem init_task_states (s : AgentStateManager) (c : SimulationContext)
    (agents : Option (List HydroAgentInstance)) (h : ¬c.biz_scene_instance_id = "") :
    (s.init_task (some c) agents).task_states =
      dictInsert s.task_states c.biz_scene_instance_id
        ⟨c.biz_scene_instance_id, TaskStatus.ACTIVE, initAgentIds agents⟩ := by
  simp only [AgentStateManager.init_task]
  rw [if_neg h]
  cases agents with
  | none =>
    simp only [AgentStateManager.add_active_context]
    rw [if_neg h]
    simp [initAgentIds, dictInsert_dictInsert]
  | some l =>
    simp only [AgentStateManager.add_active_context]
    rw [if_neg h]
    simp only [register_foldl_states, initAgentIds, dictInsert_dictInsert]

/-- init_task leaves the local-agent set unchanged. -/
theorem init_task_locals (s : AgentStateManager) (c : Option SimulationContext)
    (agents : Option (List HydroAgentInstance)) :
    (s.init_task c agents).local_agent_instances = s.local_agent_instances := by
  cases c with
  | none => rfl
  | some c =>
    simp only [AgentStateManager.init_task]
    by_cases h : c.biz_scene_instance_id = ""
    · rw [if_pos h]
    · rw [if_neg h]
      cases agents with
      | none =>
        simp only [AgentStateManager.add_active_context]
        rw [if_neg h]
      | some l =>
        simp only [AgentStateManager.add_active_context]
        rw [if_neg h]
        simp only [register_foldl_locals]

/-- init_task leaves the node id unchanged. -/
theorem init_task_node (s : AgentStateManager) (c : Option SimulationContext)
    (agents : Option (List HydroAgentInstance)) :
    (s.init_task c agents).hydros_node_id = s.hydros_node_id := by
  cases c with
  | none => rfl
  | some c =>
    simp only [AgentStateManager.init_task]
    by_cases h : c.biz_scene_instance_id = ""
    · rw [if_pos h]
    · rw [if_neg h]
      cases agents with
      | none =>
        simp only [AgentStateManager.add_active_context]
        rw [if_neg h]
      | some l =>
        simp only [AgentStateManager.add_active_context]
        rw [if_neg h]
        simp only [register_foldl_node]

/-- terminate_task on a valid context: the active set loses the context id. -/
theorem terminate_task_active (s : AgentStateManager) (c : SimulationContext)
    (h : ¬c.biz_scene_instance_id = "") :
    (s.terminate_task (some c)).active_contexts =
      setDiscard s.active_contexts c.biz_scene_instance_id := by
  simp only [AgentStateManager.terminate_task]
  rw [if_neg h]
  cases hts : dictGet s.task_states c.biz_scene_instance_id <;>
    · simp only [AgentStateManager.remove_active_context]
      rw [if_neg h]

/-- terminate_task on a valid context: the stored TaskState, when present, is
replaced by a TERMINATED record; when absent the map is unchanged. -/
theorem terminate_task_states (s : AgentStateManager) (c : SimulationContext)
    (h : ¬c.biz_scene_instance_id = "") :
    (s.terminate_task (some c)).task_states =
      (match dictGet s.task_states c.biz_scene_instance_id with
      | some ts => dictInsert s.task_states c.biz_scene_instance_id
          ⟨ts.context_id, TaskStatus.TERMINATED, ts.agent_ids⟩
      | none => s.task_states) := by
  simp only [AgentStateManager.terminate_task]
  rw [if_neg h]
  cases hts : dictGet s.task_states c.biz_scene_instance_id <;>
    · simp only [AgentStateManager.remove_active_context, hts]
      rw [if_neg h]

/-- No operation that does not initialize `cid` can put `cid` into the
active-context set. -/
theorem not_mem_active_apply (s : AgentStateManager) (op : SMOp) (cid : String)
    (hop : op.initializes cid = false) (hs : cid ∉ s.active_contexts) :
    cid ∉ (op.apply s).active_contexts := by
  cases op with
  | set_cluster_id c => exact hs
  | set_node_id n => exact hs
  | add_active_context c =>
    cases c with
    | none => exact hs
    | some c =>
      simp only [SMOp.initializes, beq_eq_false_iff_ne, ne_eq] at hop
      simp only [SMOp.apply, AgentStateManager.add_active_context]
      split
      · exact hs
      · intro hmem
        rcases mem_setAdd.mp hmem with rfl | hmem
        · exact hop rfl
        · exact hs hmem
  | remove_active_context c =>
    cases c with
    | none => exact hs
    | some c =>
      simp only [SMOp.apply, AgentStateManager.remove_active_context]
      split
      · exact hs
      · exact fun hmem => hs (mem_setDiscard.mp hmem).1
  | register_agent_instance a =>
    simp only [SMOp.apply, register_active]
    exact hs
  | unregister_agent_instance aid => exact hs
  | update_agent_status aid st =>
    simp only [SMOp.apply, AgentStateManager.update_agent_status]
    cases dictGet s.agent_instances aid <;> exact hs
  | add_local_agent a =>
    cases a with
    | none => exact hs
    | some a =>
      simp only [SMOp.apply, AgentStateManager.add_local_agent]
      split <;> exact hs
  | remove_local_agent a =>
    cases a with
    | none => exact hs
    | some a =>
      simp only [SMOp.apply, AgentStateManager.remove_local_agent]
      split <;> exact hs
  | init_task c agents =>
    cases c with
    | none => exact hs
    | some c =>
      simp only [SMOp.initializes, beq_eq_false_iff_ne, ne_eq] at hop
      simp only [SMOp.apply]
      by_cases h : c.biz_scene_instance_id = ""
      · simp only [AgentStateManager.init_task]
        rw [if_pos h]
        exact hs
      · rw [init_task_active s c agents h]
        intro hmem
        rcases mem_setAdd.mp hmem with rfl | hmem
        · exact hop rfl
        · exact hs hmem
  | terminate_task c =>
    cases c with
    | none => exact hs
    | some c =>
      simp only [SMOp.apply]
      by_cases h : c.biz_scene_instance_id = ""
      · simp only [AgentStateManager.terminate_task]
        rw [if_pos h]
        exact hs
      · rw [terminate_task_active s c h]
        exact fun hmem => hs (mem_setDiscard.mp hmem).1
  | clear => simp [SMOp.apply, AgentStateManager.clear]

/-- Over a whole run: a context id never initialized is never active. -/
theorem not_mem_active_runFrom (ops : List SMOp) (s : AgentStateManager) (cid : String)
    (hs : cid ∉ s.active_contexts)
    (hops : ∀ op ∈ ops, op.initializes cid = false) :
    cid ∉ (SMOp.runFrom s ops).active_contexts := by
  induction ops generalizing s with
  | nil => exact hs
  | cons op rest ih =>
    exact ih (op.apply s)
      (not_mem_active_apply s op cid (hops op (by simp)) hs)
      (fun o ho => hops o (by simp [ho]))

/-- A sample context with id "T1" for concrete instantiations. -/
def sampleCtxT1 : SimulationContext := ⟨"T1", none, none, none, true⟩

/-- A sample context with id "T2" for concrete instantiations. -/
def sampleCtxT2 : SimulationContext := ⟨"T2", none, none, none, true⟩

/-- Claim C1: for every context C not yet initialized (no init_task or
add_active_context was applied for C's id in the whole operation history),
has_active_context(C) is false, and every inbound command that is not a
SimTaskInitRequest and whose context is C fails should_process_message. -/
theorem claim_C1_uninitialized_context_filtered (ops : List SMOp)
    (C : SimulationContext)
    (h : ∀ op ∈ ops, op.initializes C.biz_scene_instance_id = false) :
    (SMOp.run ops).has_active_context (some C) = false ∧
    ∀ cmd : SimCommandV, cmd.isSimTaskInitRequest = false → cmd.context = C →
      MessageFilter.should_process_message (SMOp.run ops) cmd = false := by
  have hmem : C.biz_scene_instance_id ∉ (SMOp.run ops).active_contexts :=
    not_mem_active_runFrom ops AgentStateManager.init C.biz_scene_instance_id
      (by simp [AgentStateManager.init]) h
  have hfalse : (SMOp.run ops).has_active_context (some C) = false := by
    simp only [AgentStateManager.has_active_context]
    by_cases hid : C.biz_scene_instance_id = ""
    · rw [if_pos hid]
    · rw [if_neg hid]
      simpa using hmem
  refine ⟨hfalse, fun cmd hreq hctx => ?_⟩
  simp only [MessageFilter.should_process_message,
    MessageFilter.is_active_to_task_sim_command, hreq, hctx, hfalse]
  simp

/-- Witness for C1 at a concrete history: a task was initialized for "T2" but
never for "T1", so context "T1" is inactive and a tick command for it is
filtered out. -/
theorem claim_C1_uninitialized_context_filtered_witness :
    (SMOp.run [SMOp.init_task (some sampleCtxT2) none]).has_active_context (some sampleCtxT1) = false ∧
    MessageFilter.should_process_message (SMOp.run [SMOp.init_task (some sampleCtxT2) none])
      (SimCommandV.tickCmdRequest ⟨"cmd-1", sampleCtxT1, false, 1⟩) = false := by
  have h := claim_C1_uninitialized_context_filtered
    [SMOp.init_task (some sampleCtxT2) none] sampleCtxT1 (by decide)
  exact ⟨h.1, h.2 (SimCommandV.tickCmdRequest ⟨"cmd-1", sampleCtxT1, false, 1⟩) rfl rfl⟩

/-- The C4 invariant relating the active-context set and the task-state map. -/
def ctx_task_invariant (s : AgentStateManager) : Prop :=
  (∀ cid : String, cid ∈ s.active_contexts ↔
    ∃ ts : TaskState, dictGet s.task_states cid = some ts ∧
      ts.status ≠ TaskStatus.TERMINATED) ∧
  dictGet s.task_states "" = none

theorem ctx_task_invariant_init : ctx_task_invariant AgentStateManager.init := by
  constructor
  · intro cid
    simp [AgentStateManager.init, dictGet]
  · simp [AgentStateManager.init, dictGet]

/-- Every lifecycle operation (i.e. everything except a direct
add_active_context / remove_active_context) preserves the C4 invariant. -/
theorem ctx_task_invariant_apply (s : AgentStateManager) (op : SMOp)
    (hop : op.isLifecycle = true) (hinv : ctx_task_invariant s) :
    ctx_task_invariant (op.apply s) := by
  cases op with
  | set_cluster_id c => exact hinv
  | set_node_id n => exact hinv
  | add_active_context c => simp [SMOp.isLifecycle] at hop
  | remove_active_context c => simp [SMOp.isLifecycle] at hop
  | register_agent_instance a =>
    simpa [ctx_task_invariant, SMOp.apply, register_active, register_states] using hinv
  | unregister_agent_instance aid => exact hinv
  | update_agent_status aid st =>
    simp only [ctx_task_invariant, SMOp.apply, AgentStateManager.update_agent_status]
    cases dictGet s.agent_instances aid <;> exact hinv
  | add_local_agent a =>
    cases a with
    | none => exact hinv
    | some a =>
      simp only [ctx_task_invariant, SMOp.apply, AgentStateManager.add_local_agent]
      split <;> exact hinv
  | remove_local_agent a =>
    cases a with
    | none => exact hinv
    | some a =>
      simp only [ctx_task_invariant, SMOp.apply, AgentStateManager.remove_local_agent]
      split <;> exact hinv
  | init_task c agents =>
    cases c with
    | none => exact hinv
    | some c =>
      simp only [SMOp.apply]
      by_cases h : c.biz_scene_instance_id = ""
      · simp only [AgentStateManager.init_task]
        rw [if_pos h]
        exact hinv
      · constructor
        · intro cid
          rw [init_task_active s c agents h, init_task_states s c agents h]
          by_cases hc : cid = c.biz_scene_instance_id
          · subst hc
            rw [dictGet_dictInsert_self]
            simp [mem_setAdd]
          · rw [dictGet_dictInsert_ne _ _ hc]
            rw [mem_setAdd]
            simp only [hc, false_or]
            exact hinv.1 cid
        · rw [init_task_states s c agents h,
            dictGet_dictInsert_ne _ _ (fun he => h he.symm)]
          exact hinv.2
  | terminate_task c =>
    cases c with
    | none => exact hinv
    | some c =>
      simp only [SMOp.apply]
      by_cases h : c.biz_scene_instance_id = ""
      · simp only [AgentStateManager.terminate_task]
        rw [if_pos h]
        exact hinv
      · constructor
        · intro cid
          rw [terminate_task_active s c h, terminate_task_states s c h]
          by_cases hc : cid = c.biz_scene_instance_id
          · subst hc
            cases hts : dictGet s.task_states c.biz_scene_instance_id with
            | none => simp [mem_setDiscard, hts]
            | some ts =>
              simp only [hts, dictGet_dictInsert_self]
              simp [mem_setDiscard]
          · cases hts : dictGet s.task_states c.biz_scene_instance_id with
            | none =>
              simp only [hts, mem_setDiscard]
              simp only [hc, ne_eq, not_false_iff, and_true]
              exact hinv.1 cid
            | some ts =>
              simp only [hts, mem_setDiscard]
              rw [dictGet_dictInsert_ne _ _ hc]
              simp only [hc, ne_eq, not_false_iff, and_true]
              exact hinv.1 cid
        · rw [terminate_task_states s c h]
          cases hts : dictGet s.task_states c.biz_scene_instance_id with
          | none => exact hinv.2
          | some ts =>
            rw [dictGet_dictInsert_ne _ _ (fun he => h he.symm)]
            exact hinv.2
  | clear =>
    constructor
    · intro cid
      simp [SMOp.apply, AgentStateManager.clear, dictGet]
    · simp [SMOp.apply, AgentStateManager.clear, dictGet]

theorem ctx_task_invariant_runFrom (ops : List SMOp) (s : AgentStateManager)
    (hs : ctx_task_invariant s) (hops : ∀ op ∈ ops, op.isLifecycle = true) :
    ctx_task_invariant (SMOp.runFrom s ops) := by
  induction ops generalizing s with
  | nil => exact hs
  | cons op rest ih =>
    exact ih (op.apply s)
      (ctx_task_invariant_apply s op (hops op (by simp)) hs)
      (fun o ho => hops o (by simp [ho]))

/-- Two managers with equal fields are equal. -/
theorem AgentStateManager.ext_fields (u w : AgentStateManager)
    (h1 : u.active_contexts = w.active_contexts)
    (h2 : u.task_states = w.task_states)
    (h3 : u.agent_instances = w.agent_instances)
    (h4 : u.local_agent_instances = w.local_agent_instances)
    (h5 : u.hydros_cluster_id = w.hydros_cluster_id)
    (h6 : u.hydros_node_id = w.hydros_node_id) : u = w := by
  cases u
  cases w
  simp_all

/-- Claim C4, amended: over histories built from the task-lifecycle and
registry operations (excluding direct add_active_context /
remove_active_context calls), has_active_context(ctx) is true iff a TaskState
for ctx's biz_scene_instance_id exists whose status is not TERMINATED. -/
theorem claim_C4_active_iff_nonterminated (ops : List SMOp)
    (h : ∀ op ∈ ops, op.isLifecycle = true) (ctx : SimulationContext) :
    (SMOp.run ops).has_active_context (some ctx) = true ↔
      ∃ ts : TaskState,
        dictGet (SMOp.run ops).task_states ctx.biz_scene_instance_id = some ts ∧
        ts.status ≠ TaskStatus.TERMINATED := by
  have hinv : ctx_task_invariant (SMOp.run ops) :=
    ctx_task_invariant_runFrom ops AgentStateManager.init ctx_task_invariant_init h
  simp only [AgentStateManager.has_active_context]
  by_cases hid : ctx.biz_scene_instance_id = ""
  · rw [if_pos hid, hid]
    simp only [Bool.false_eq_true, false_iff]
    rw [hinv.2]
    simp
  · rw [if_neg hid]
    rw [show ((SMOp.run ops).active_contexts.contains ctx.biz_scene_instance_id = true) ↔
      ctx.biz_scene_instance_id ∈ (SMOp.run ops).active_contexts by simp]
    exact hinv.1 ctx.biz_scene_instance_id

/-- Witness for C4 at a concrete lifecycle history: after init of "T1" and
termination of "T2". -/
theorem claim_C4_active_iff_nonterminated_witness :
    (SMOp.run [SMOp.init_task (some sampleCtxT1) none, SMOp.terminate_task (some sampleCtxT2)]).has_active_context (some sampleCtxT1) = true ↔
      ∃ ts : TaskState,
        dictGet (SMOp.run [SMOp.init_task (some sampleCtxT1) none, SMOp.terminate_task (some sampleCtxT2)]).task_states sampleCtxT1.biz_scene_instance_id = some ts ∧
        ts.status ≠ TaskStatus.TERMINATED :=
  claim_C4_active_iff_nonterminated
    [SMOp.init_task (some sampleCtxT1) none, SMOp.terminate_task (some sampleCtxT2)]
    (by decide) sampleCtxT1

/-- Counterexample to C4 as stated: the public operation add_active_context is
reachable on its own, and after it the context is active while no TaskState at
all exists for it. -/
theorem claim_C4_counterexample :
    (SMOp.run [SMOp.add_active_context (some sampleCtxT1)]).has_active_context (some sampleCtxT1) = true ∧
    dictGet (SMOp.run [SMOp.add_active_context (some sampleCtxT1)]).task_states "T1" = none := by
  constructor <;> rfl

/-- terminate_task leaves the agent-instance map, the local-agent set and the
cluster/node ids unchanged. -/
theorem terminate_task_frame (s : AgentStateManager) (c : Option SimulationContext) :
    (s.terminate_task c).agent_instances = s.agent_instances ∧
    (s.terminate_task c).local_agent_instances = s.local_agent_instances ∧
    (s.terminate_task c).hydros_cluster_id = s.hydros_cluster_id ∧
    (s.terminate_task c).hydros_node_id = s.hydros_node_id := by
  cases c with
  | none => exact ⟨rfl, rfl, rfl, rfl⟩
  | some c =>
    simp only [AgentStateManager.terminate_task]
    by_cases h : c.biz_scene_instance_id = ""
    · rw [if_pos h]
      exact ⟨rfl, rfl, rfl, rfl⟩
    · rw [if_neg h]
      cases hts : dictGet s.task_states c.biz_scene_instance_id <;>
        · simp only [AgentStateManager.remove_active_context]
          rw [if_neg h]
          exact ⟨rfl, rfl, rfl, rfl⟩

/-- Calling terminate_task twice on the same context gives the same state as
calling it once (the second call is a no-op up to re-writing the same
TERMINATED record). -/
theorem terminate_task_idem (t : AgentStateManager) (C : SimulationContext) :
    (t.terminate_task (some C)).terminate_task (some C) = t.terminate_task (some C) := by
  by_cases h : C.biz_scene_instance_id = ""
  · have : ∀ u : AgentStateManager, u.terminate_task (some C) = u := by
      intro u
      simp only [AgentStateManager.terminate_task]
      rw [if_pos h]
    rw [this, this]
  · apply AgentStateManager.ext_fields
    · rw [terminate_task_active _ C h, terminate_task_active t C h,
        setDiscard_setDiscard]
    · rw [terminate_task_states _ C h]
      cases hts : dictGet t.task_states C.biz_scene_instance_id with
      | none =>
        have hT2 : (t.terminate_task (some C)).task_states = t.task_states := by
          rw [terminate_task_states t C h, hts]
        rw [hT2, hts]
      | some ts =>
        have hT2 : (t.terminate_task (some C)).task_states =
            dictInsert t.task_states C.biz_scene_instance_id
              ⟨ts.context_id, TaskStatus.TERMINATED, ts.agent_ids⟩ := by
          rw [terminate_task_states t C h, hts]
        rw [hT2, dictGet_dictInsert_self]
        simp [dictInsert_dictInsert]
    · exact (terminate_task_frame _ (some C)).1
    · exact (terminate_task_frame _ (some C)).2.1
    · exact (terminate_task_frame _ (some C)).2.2.1
    · exact (terminate_task_frame _ (some C)).2.2.2

/-- Claim C5: for a valid context C (nonempty id), init_task makes it active,
a subsequent terminate_task makes it inactive, and terminate_task is total and
idempotent (a second call on the same context, or a call on a context never
initialized, changes nothing and raises nothing). -/
theorem claim_C5_init_then_terminate (s : AgentStateManager) (C : SimulationContext)
    (agents : Option (List HydroAgentInstance))
    (h : C.biz_scene_instance_id ≠ "") :
    (s.init_task (some C) agents).has_active_context (some C) = true ∧
    ((s.init_task (some C) agents).terminate_task (some C)).has_active_context (some C) = false ∧
    ∀ t : AgentStateManager,
      (t.terminate_task (some C)).terminate_task (some C) = t.terminate_task (some C) := by
  refine ⟨?_, ?_, fun t => terminate_task_idem t C⟩
  · simp only [AgentStateManager.has_active_context]
    rw [if_neg h, init_task_active s C agents h]
    simp [mem_setAdd]
  · simp only [AgentStateManager.has_active_context]
    rw [if_neg h, terminate_task_active _ C h]
    simp [mem_setDiscard]

/-- Witness for C5 at a concrete context and a fresh manager. -/
theorem claim_C5_init_then_terminate_witness :
    (AgentStateManager.init.init_task (some sampleCtxT1) none).has_active_context (some sampleCtxT1) = true ∧
    ((AgentStateManager.init.init_task (some sampleCtxT1) none).terminate_task (some sampleCtxT1)).has_active_context (some sampleCtxT1) = false ∧
    ∀ t : AgentStateManager,
      (t.terminate_task (some sampleCtxT1)).terminate_task (some sampleCtxT1) = t.terminate_task (some sampleCtxT1) :=
  claim_C5_init_then_terminate AgentStateManager.init sampleCtxT1 none (by decide)

/-- A sample agent instance with id "AGT1_A" for concrete instantiations. -/
def sampleAgentA : HydroAgentInstance :=
  ⟨"A", "SIM", none, "http://cfg/a.yaml", "AGT1_A", "T1", "c1", "n1",
    sampleCtxT1, AgentBizStatus.ACTIVE, AgentDriveMode.SIM_TICK_DRIVEN⟩

/-- Claim C2, amended: _should_send(cmd) is true iff cmd is a
SimCoordinationResponse or an AgentInstanceStatusReport whose source agent is
local.  In particular every Request yields false, and so do the other two
report variants (ParameterIdentifiedReport, HydroAlertUpdatedReport) even with
a local source. -/
theorem claim_C2_should_send_characterization (s : AgentStateManager)
    (cmd : SimCommandV) :
    SimCoordinationClient.should_send s cmd =
      ((cmd.isSimCoordinationResponse || cmd.isAgentInstanceStatusReport) &&
        s.is_local_agent cmd.source_agent_instance) := by
  cases cmd <;>
    simp [SimCoordinationClient.should_send, SimCommandV.isSimCoordinationRequest,
      SimCommandV.isSimCoordinationResponse, SimCommandV.isAgentInstanceStatusReport,
      SimCommandV.source_agent_instance, AgentStateManager.is_local_agent]

/-- Counterexample to C2 as stated: a ParameterIdentifiedReport is a Report
command with a local source, yet _should_send returns false for it (the code
tests only isinstance SimCoordinationResponse / AgentInstanceStatusReport). -/
theorem claim_C2_counterexample :
    SimCoordinationClient.should_send
      (AgentStateManager.init.add_local_agent (some sampleAgentA))
      (SimCommandV.parameterIdentifiedReport ⟨"cmd-2", sampleCtxT1, false, sampleAgentA, []⟩) = false ∧
    claimC2_spec_should_send
      (AgentStateManager.init.add_local_agent (some sampleAgentA))
      (SimCommandV.parameterIdentifiedReport ⟨"cmd-2", sampleCtxT1, false, sampleAgentA, []⟩) = true := by
  constructor <;> rfl

/-- Counterexample to C6 as stated: for a None agent instance both
is_local_agent and is_remote_agent return false, so is_remote_agent is not the
negation of is_local_agent there. -/
theorem claim_C6_counterexample :
    ¬ (AgentStateManager.init.is_remote_agent none =
        !(AgentStateManager.init.is_local_agent none)) := by
  decide

/-- Claim C6, amended: for every present (non-None) agent instance,
is_remote_agent is the negation of is_local_agent (on None both return
false); and for an instance with a nonempty agent_id, is_local_agent is true
immediately after add_local_agent and false immediately after the matching
remove_local_agent (an empty agent_id makes both calls no-ops, and the node-id
fallback can then answer true regardless). -/
theorem claim_C6_local_remote_tracking (s : AgentStateManager)
    (a : HydroAgentInstance) (h : a.agent_id ≠ "") :
    (∀ (t : AgentStateManager) (b : HydroAgentInstance),
      t.is_remote_agent (some b) = !(t.is_local_agent (some b))) ∧
    (s.add_local_agent (some a)).is_local_agent (some a) = true ∧
    ((s.add_local_agent (some a)).remove_local_agent (some a)).is_local_agent (some a) = false := by
  refine ⟨fun t b => rfl, ?_, ?_⟩
  · simp only [AgentStateManager.add_local_agent]
    rw [if_neg h]
    simp only [AgentStateManager.is_local_agent]
    have hc : (setAdd s.local_agent_instances a.agent_id).contains a.agent_id = true := by
      simp [mem_setAdd]
    rw [hc]
    simp
  · simp only [AgentStateManager.add_local_agent]
    rw [if_neg h]
    simp only [AgentStateManager.remove_local_agent]
    rw [if_neg h]
    simp only [AgentStateManager.is_local_agent]
    have hc : (setDiscard (setAdd s.local_agent_instances a.agent_id) a.agent_id).contains a.agent_id = false := by
      simp [mem_setDiscard]
    rw [hc]
    cases s.hydros_node_id with
    | none => simp
    | some nid =>
      simp only [Bool.false_eq_true, if_false]
      split
      · simp [h]
      · rfl

/-- Witness for C6 at a concrete agent and a fresh manager. -/
theorem claim_C6_local_remote_tracking_witness :
    sampleAgentA.agent_id ≠ "" ∧
    (AgentStateManager.init.add_local_agent (some sampleAgentA)).is_local_agent (some sampleAgentA) = true ∧
    ((AgentStateManager.init.add_local_agent (some sampleAgentA)).remove_local_agent (some sampleAgentA)).is_local_agent (some sampleAgentA) = false :=
  ⟨by decide,
    (claim_C6_local_remote_tracking AgentStateManager.init sampleAgentA (by decide)).2.1,
    (claim_C6_local_remote_tracking AgentStateManager.init sampleAgentA (by decide)).2.2⟩

/-- When every publish fails, a retry loop entered at `attempt` with
`fuel - 1` retries left runs `fuel` attempts, sleeps
`base * 2 ^ (attempt + 1 + i)` before retry `i`, and re-raises at the end. -/
theorem retry_go_all_fail (max_retry_count base : Nat) :
    ∀ (fuel attempt : Nat), attempt + fuel = max_retry_count →
      SimCoordinationClient.retry_go (fun _ => false) max_retry_count base attempt (fuel + 1) =
        ⟨fuel + 1, (List.range fuel).map (fun i => base * 2 ^ (attempt + 1 + i)), true⟩ := by
  intro fuel
  induction fuel with
  | zero =>
    intro attempt h
    simp only [Nat.add_zero] at h
    subst h
    simp [SimCoordinationClient.retry_go]
  | succ k ih =>
    intro attempt h
    have hrec := ih (attempt + 1) (by omega)
    rw [SimCoordinationClient.retry_go]
    rw [if_neg (by simp), if_neg (by omega)]
    simp only [hrec, RetryTrace.mk.injEq, true_and, and_true]
    have htail : (List.range k).map ((fun i => base * 2 ^ (attempt + 1 + i)) ∘ Nat.succ) =
        (List.range k).map (fun i => base * 2 ^ (attempt + 1 + 1 + i)) := by
      apply List.map_congr_left
      intro i hi
      simp only [Function.comp_apply]
      congr 2
      omega
    rw [List.range_succ_eq_map, List.map_cons, List.map_map, htail]

/-- Claim C3, amended: when every publish attempt fails, _send_with_retry
performs exactly max_retry_count+1 publish attempts and then re-raises; the
inter-attempt delays are base_retry_delay_ms * 2^i for retry i = 1..max, and
they strictly increase provided base_retry_delay_ms > 0 (with a zero base
delay the formula still holds but every delay is 0). -/
theorem claim_C3_retry_exhaustion (max_retry_count base : Nat) :
    (SimCoordinationClient.send_with_retry (fun _ => false) max_retry_count base).attempts = max_retry_count + 1 ∧
    (SimCoordinationClient.send_with_retry (fun _ => false) max_retry_count base).raised = true ∧
    (SimCoordinationClient.send_with_retry (fun _ => false) max_retry_count base).delays =
      (List.range max_retry_count).map (fun i => base * 2 ^ (i + 1)) ∧
    (0 < base →
      (SimCoordinationClient.send_with_retry (fun _ => false) max_retry_count base).delays.Pairwise (· < ·)) := by
  have hrun := retry_go_all_fail max_retry_count base max_retry_count 0 (by omega)
  have hdelays : (SimCoordinationClient.send_with_retry (fun _ => false) max_retry_count base).delays =
      (List.range max_retry_count).map (fun i => base * 2 ^ (i + 1)) := by
    simp only [SimCoordinationClient.send_with_retry, hrun]
    apply List.map_congr_left
    intro i hi
    congr 2
    omega
  refine ⟨?_, ?_, hdelays, ?_⟩
  · simp only [SimCoordinationClient.send_with_retry, hrun]
  · simp only [SimCoordinationClient.send_with_retry, hrun]
  · intro hb
    rw [hdelays]
    refine List.Pairwise.map _ ?_ (List.pairwise_lt_range max_retry_count)
    intro i j hij
    have h2 : 2 ^ (i + 1) < 2 ^ (j + 1) :=
      Nat.pow_lt_pow_right (by norm_num) (by omega)
    exact mul_lt_mul_of_pos_left h2 hb

/-- Witness for C3 at the client defaults (max_retry_count = 5,
base_retry_delay_ms = 1000). -/
theorem claim_C3_retry_exhaustion_witness :
    (SimCoordinationClient.send_with_retry (fun _ => false) 5 1000).attempts = 6 ∧
    (0 < 1000) ∧
    (SimCoordinationClient.send_with_retry (fun _ => false) 5 1000).delays.Pairwise (· < ·) :=
  ⟨(claim_C3_retry_exhaustion 5 1000).1, by decide,
    (claim_C3_retry_exhaustion 5 1000).2.2.2 (by decide)⟩

/-- Counterexample to C3 as stated: with base_retry_delay_ms = 0 (the
constructor accepts it) and max_retry_count = 2, every inter-attempt delay is
0, so the delays do not strictly increase from one retry to the next. -/
theorem claim_C3_counterexample :
    (SimCoordinationClient.send_with_retry (fun _ => false) 2 0).delays = [0, 0] ∧
    ¬ (SimCoordinationClient.send_with_retry (fun _ => false) 2 0).delays.Pairwise (· < ·) := by
  have hd : (SimCoordinationClient.send_with_retry (fun _ => false) 2 0).delays = [0, 0] := rfl
  refine ⟨hd, ?_⟩
  rw [hd]
  simp [List.pairwise_cons]

/-- remove_local_agent leaves the agent-instance map unchanged. -/
theorem remove_local_agent_instances (s : AgentStateManager)
    (a : Option HydroAgentInstance) :
    (s.remove_local_agent a).agent_instances = s.agent_instances := by
  cases a with
  | none => rfl
  | some a =>
    by_cases h : a.agent_id = "" <;>
      simp [AgentStateManager.remove_local_agent, h]

/-- Claim C7 (the code-bug demonstration): the terminate path
(StateManager.terminate_task followed by the agent's on_terminate cleanup,
i.e. remove_local_agent) never removes anything from the agent-instance
registry — unregister_agent_instance has no caller — so after terminating the
task of a concretely initialized agent, get_agent_instance still returns the
instance instead of absent. -/
theorem claim_C7_terminate_keeps_registry :
    (∀ (s : AgentStateManager) (self : HydroAgentInstance),
      (TwinsSimulationAgent.on_terminate_state s self).agent_instances = s.agent_instances) ∧
    (TwinsSimulationAgent.on_terminate_state
        (AgentStateManager.init.init_task (some sampleCtxT1) (some [sampleAgentA]))
        sampleAgentA).get_agent_instance "AGT1_A" = some sampleAgentA := by
  constructor
  · intro s self
    unfold TwinsSimulationAgent.on_terminate_state
    rw [remove_local_agent_instances, (terminate_task_frame s (some self.context)).1]
  · rfl

/-- Claim C9, amended: when the subclass hook on_tick_simulation raises,
on_tick catches and returns a TickCmdResponse carrying the request's
command_id and the agent's context with status FAILED; when the hook returns
normally, the response is SUCCEED exactly when the returned metrics list is
empty/None or the metrics-batch send does not raise (a send failure is also
caught and produces FAILED). -/
theorem claim_C9_on_tick_failure_handling (self : HydroAgentInstance)
    (request : TickCmdRequest) (m : Option (List MetricsDict)) (send_ok : Bool) :
    TickableAgent.on_tick self request (Except.error ()) send_ok =
      { context := self.context, command_id := request.command_id,
        command_status := some CommandStatus.FAILED,
        source_agent_instance := self, broadcast := false } ∧
    (TickableAgent.on_tick self request (Except.ok m) send_ok).command_id =
      request.command_id ∧
    (TickableAgent.on_tick self request (Except.ok m) send_ok).context =
      self.context ∧
    (TickableAgent.on_tick self request (Except.ok m) send_ok).command_status =
      some (if (match m with | some (_ :: _) => true | _ => false) && !send_ok
        then CommandStatus.FAILED else CommandStatus.SUCCEED) := by
  refine ⟨rfl, ?_, ?_, ?_⟩ <;>
    · simp only [TickableAgent.on_tick]
      split <;> rfl

/-- Counterexample to C9 as stated: the hook returns normally (with one
metrics dictionary) but the metrics-batch send raises, and the response is
FAILED, not SUCCEED. -/
theorem claim_C9_counterexample :
    (TickableAgent.on_tick sampleAgentA ⟨"cmd-9", sampleCtxT1, false, 3⟩
        (Except.ok (some [([] : MetricsDict)])) false).command_status ≠
      some CommandStatus.SUCCEED := by
  decide

/-- Claim C10: the dispatcher invokes the sibling callbacks only when
callback.is_remote_agent answers true on the source agent instance, and the
SimCoordinationCallback default implementation answers false for every
instance, so with an un-overridden callback neither sibling callback is ever
invoked. -/
theorem claim_C10_sibling_callbacks_gated :
    (∀ (p : HydroAgentInstance → Bool) (response : SimTaskInitResponse),
      (SimCoordinationClient.handle_task_init_response p response).isSome =
        p response.source_agent_instance) ∧
    (∀ (p : HydroAgentInstance → Bool) (report : AgentInstanceStatusReport),
      (SimCoordinationClient.handle_agent_status_report p report).isSome =
        p report.source_agent_instance) ∧
    (∀ a : HydroAgentInstance, SimCoordinationCallback.is_remote_agent a = false) ∧
    (∀ response : SimTaskInitResponse,
      SimCoordinationClient.handle_task_init_response
        SimCoordinationCallback.is_remote_agent response = none) ∧
    (∀ report : AgentInstanceStatusReport,
      SimCoordinationClient.handle_agent_status_report
        SimCoordinationCallback.is_remote_agent report = none) := by
  refine ⟨?_, ?_, fun a => rfl, fun r => rfl, fun r => rfl⟩
  · intro p r
    cases hp : p r.source_agent_instance <;>
      simp [SimCoordinationClient.handle_task_init_response, hp]
  · intro p r
    cases hp : p r.source_agent_instance <;>
      simp [SimCoordinationClient.handle_agent_status_report, hp]

/-- Look up a field of a JSON object (pydantic reads fields by name; extra
keys are ignored). -/
def getField : List (String × Json) → String → Option Json
  | [], _ => none
  | p :: rest, k => if p.1 = k then some p.2 else getField rest k

/-- Parse a JSON string. -/
def asStr : Json → Option String
  | .str s => some s
  | _ => none

/-- Parse a JSON boolean. -/
def asBool : Json → Option Bool
  | .bool b => some b
  | _ => none

/-- Parse a JSON integer (a number with denominator 1). -/
def asInt : Json → Option Int
  | .num q => if q.den = 1 then some q.num else none
  | _ => none

/-- Parse a JSON number (a Python float field). -/
def asRat : Json → Option Rat
  | .num q => some q
  | _ => none

/-- Parse an `Any`-typed field: the parsed JSON value is kept as is. -/
def asAny : Json → Option Json := fun v => some v

/-- Decode every element of a JSON array. -/
def decAll {α : Type} (d : Json → Option α) : List Json → Option (List α)
  | [] => some []
  | x :: xs => do
    let a ← d x
    let r ← decAll d xs
    pure (a :: r)

/-- Parse a JSON array elementwise. -/
def decList {α : Type} (d : Json → Option α) : Json → Option (List α)
  | .arr xs => decAll d xs
  | _ => none

/-- Decode every value of a JSON object (a Python `Dict[str, T]`). -/
def decAllKV {α : Type} (d : Json → Option α) :
    List (String × Json) → Option (List (String × α))
  | [] => some []
  | p :: rest => do
    let a ← d p.2
    let r ← decAllKV d rest
    pure ((p.1, a) :: r)

/-- Parse a JSON object as a string-keyed dictionary. -/
def decDict {α : Type} (d : Json → Option α) : Json → Option (List (String × α))
  | .obj kvs => decAllKV d kvs
  | _ => none

/-- Parse an `Optional[T]` value: JSON null is Python None. -/
def decOptVal {α : Type} (d : Json → Option α) : Json → Option (Option α)
  | .null => some none
  | v => (d v).map some

/-- A required field: must be present and parse. -/
def reqField {α : Type} (kvs : List (String × Json)) (k : String)
    (d : Json → Option α) : Option α :=
  (getField kvs k).bind d

/-- An `Optional[T] = None` field: absent or null is None. -/
def optField {α : Type} (kvs : List (String × Json)) (k : String)
    (d : Json → Option α) : Option (Option α) :=
  match getField kvs k with
  | none => some none
  | some v => decOptVal d v

/-- A field with a non-None default: absent means the default. -/
def fieldD {α : Type} (kvs : List (String × Json)) (k : String)
    (d : Json → Option α) (dflt : α) : Option α :=
  match getField kvs k with
  | none => some dflt
  | some v => d v

/-- Serialize an `Optional[T]` value: Python None is JSON null. -/
def encOpt {α : Type} (f : α → Json) : Option α → Json
  | none => Json.null
  | some a => f a

/-- Serialize a list. -/
def encList {α : Type} (f : α → Json) (l : List α) : Json :=
  Json.arr (l.map f)

/-- Serialize a string-keyed dictionary. -/
def encDict {α : Type} (f : α → Json) (l : List (String × α)) : Json :=
  Json.obj (l.map (fun p => (p.1, f p.2)))

/-- Serialize a CommandStatus (a str enum). -/
def encCommandStatus : CommandStatus → Json
  | .INIT => Json.str "INIT"
  | .PROCESSING => Json.str "PROCESSING"
  | .SUCCEED => Json.str "SUCCEED"
  | .FAILED => Json.str "FAILED"

/-- Parse a CommandStatus. -/
def decCommandStatus : Json → Option CommandStatus
  | .str "INIT" => some CommandStatus.INIT
  | .str "PROCESSING" => some CommandStatus.PROCESSING
  | .str "SUCCEED" => some CommandStatus.SUCCEED
  | .str "FAILED" => some CommandStatus.FAILED
  | _ => none

/-- Serialize an AgentBizStatus (a str enum). -/
def encAgentBizStatus : AgentBizStatus → Json
  | .INIT => Json.str "INIT"
  | .IDLE => Json.str "IDLE"
  | .ACTIVE => Json.str "ACTIVE"
  | .FAILED => Json.str "FAILED"

/-- Parse an AgentBizStatus. -/
def decAgentBizStatus : Json → Option AgentBizStatus
  | .str "INIT" => some AgentBizStatus.INIT
  | .str "IDLE" => some AgentBizStatus.IDLE
  | .str "ACTIVE" => some AgentBizStatus.ACTIVE
  | .str "FAILED" => some AgentBizStatus.FAILED
  | _ => none

/-- Serialize an AgentDriveMode (a str enum). -/
def encAgentDriveMode : AgentDriveMode → Json
  | .SIM_TICK_DRIVEN => Json.str "SIM_TICK_DRIVEN"
  | .EVENT_DRIVEN => Json.str "EVENT_DRIVEN"
  | .PROACTIVE => Json.str "PROACTIVE"

/-- Parse an AgentDriveMode. -/
def decAgentDriveMode : Json → Option AgentDriveMode
  | .str "SIM_TICK_DRIVEN" => some AgentDriveMode.SIM_TICK_DRIVEN
  | .str "EVENT_DRIVEN" => some AgentDriveMode.EVENT_DRIVEN
  | .str "PROACTIVE" => some AgentDriveMode.PROACTIVE
  | _ => none

/-- Serialize a Tenant.  The wire field names are the snake_case attribute
names: protocol/base.py (HydroBaseModel) is not under src/; modelled from the
spec's wire format (spec section 6) and the snake_case keys asserted by
tests/test_protocol_commands.py. -/
def encTenant (t : Tenant) : Json :=
  Json.obj [("tenant_id", Json.str t.tenant_id), ("tenant_name", Json.str t.tenant_name)]

/-- Parse a Tenant. -/
def decTenant : Json → Option Tenant
  | .obj kvs => do
    let tid ← reqField kvs "tenant_id" asStr
    let tname ← reqField kvs "tenant_name" asStr
    pure ⟨tid, tname⟩
  | _ => none

/-- Serialize a BizScenario. -/
def encBizScenario (b : BizScenario) : Json :=
  Json.obj [("biz_scenario_id", Json.str b.biz_scenario_id),
    ("biz_scenario_name", Json.str b.biz_scenario_name)]

/-- Parse a BizScenario. -/
def decBizScenario : Json → Option BizScenario
  | .obj kvs => do
    let bid ← reqField kvs "biz_scenario_id" asStr
    let bname ← reqField kvs "biz_scenario_name" asStr
    pure ⟨bid, bname⟩
  | _ => none

/-- Serialize a Waterway. -/
def encWaterway (w : Waterway) : Json :=
  Json.obj [("waterway_id", Json.str w.waterway_id),
    ("waterway_name", Json.str w.waterway_name)]

/-- Parse a Waterway. -/
def decWaterway : Json → Option Waterway
  | .obj kvs => do
    let wid ← reqField kvs "waterway_id" asStr
    let wname ← reqField kvs "waterway_name" asStr
    pure ⟨wid, wname⟩
  | _ => none

/-- Serialize a SimulationContext. -/
def encSimulationContext (c : SimulationContext) : Json :=
  Json.obj [("biz_scene_instance_id", Json.str c.biz_scene_instance_id),
    ("tenant", encOpt encTenant c.tenant),
    ("biz_scenario", encOpt encBizScenario c.biz_scenario),
    ("waterway", encOpt encWaterway c.waterway),
    ("valid", Json.bool c.valid)]

/-- Parse a SimulationContext. -/
def decSimulationContext : Json → Option SimulationContext
  | .obj kvs => do
    let bid ← reqField kvs "biz_scene_instance_id" asStr
    let t ← optField kvs "tenant" decTenant
    let b ← optField kvs "biz_scenario" decBizScenario
    let w ← optField kvs "waterway" decWaterway
    let v ← fieldD kvs "valid" asBool true
    pure ⟨bid, t, b, w, v⟩
  | _ => none

/-- Serialize a HydroAgent. -/
def encHydroAgent (a : HydroAgent) : Json :=
  Json.obj [("agent_code", Json.str a.agent_code),
    ("agent_type", Json.str a.agent_type),
    ("agent_name", encOpt Json.str a.agent_name),
    ("agent_configuration_url", Json.str a.agent_configuration_url)]

/-- Parse a HydroAgent. -/
def decHydroAgent : Json → Option HydroAgent
  | .obj kvs => do
    let code ← reqField kvs "agent_code" asStr
    let ty ← reqField kvs "agent_type" asStr
    let name ← optField kvs "agent_name" asStr
    let url ← reqField kvs "agent_configuration_url" asStr
    pure ⟨code, ty, name, url⟩
  | _ => none

/-- Serialize a HydroAgentInstance. -/
def encHydroAgentInstance (a : HydroAgentInstance) : Json :=
  Json.obj [("agent_code", Json.str a.agent_code),
    ("agent_type", Json.str a.agent_type),
    ("agent_name", encOpt Json.str a.agent_name),
    ("agent_configuration_url", Json.str a.agent_configuration_url),
    ("agent_id", Json.str a.agent_id),
    ("biz_scene_instance_id", Json.str a.biz_scene_instance_id),
    ("hydros_cluster_id", Json.str a.hydros_cluster_id),
    ("hydros_node_id", Json.str a.hydros_node_id),
    ("context", encSimulationContext a.context),
    ("agent_biz_status", encAgentBizStatus a.agent_biz_status),
    ("drive_mode", encAgentDriveMode a.drive_mode)]

/-- Parse a HydroAgentInstance. -/
def decHydroAgentInstance : Json → Option HydroAgentInstance
  | .obj kvs => do
    let code ← reqField kvs "agent_code" asStr
    let ty ← reqField kvs "agent_type" asStr
    let name ← optField kvs "agent_name" asStr
    let url ← reqField kvs "agent_configuration_url" asStr
    let aid ← reqField kvs "agent_id" asStr
    let bid ← reqField kvs "biz_scene_instance_id" asStr
    let cl ← reqField kvs "hydros_cluster_id" asStr
    let nd ← reqField kvs "hydros_node_id" asStr
    let ctx ← reqField kvs "context" decSimulationContext
    let st ← reqField kvs "agent_biz_status" decAgentBizStatus
    let dm ← reqField kvs "drive_mode" decAgentDriveMode
    pure ⟨code, ty, name, url, aid, bid, cl, nd, ctx, st, dm⟩
  | _ => none

/-- Serialize a TopHydroObject. -/
def encTopHydroObject (o : TopHydroObject) : Json :=
  Json.obj [("id", Json.str o.id), ("type", Json.str o.type),
    ("properties", encDict (fun v => v) o.properties)]

/-- Parse a TopHydroObject. -/
def decTopHydroObject : Json → Option TopHydroObject
  | .obj kvs => do
    let i ← reqField kvs "id" asStr
    let ty ← reqField kvs "type" asStr
    let props ← fieldD kvs "properties" (decDict asAny) []
    pure ⟨i, ty, props⟩
  | _ => none

/-- Serialize a TimeSeriesValue. -/
def encTimeSeriesValue (v : TimeSeriesValue) : Json :=
  Json.obj [("step", encOpt (fun (i : Int) => Json.num (i : Rat)) v.step),
    ("time", v.time),
    ("value", encOpt Json.num v.value)]

/-- Parse a TimeSeriesValue. -/
def decTimeSeriesValue : Json → Option TimeSeriesValue
  | .obj kvs => do
    let st ← optField kvs "step" asInt
    let tm ← fieldD kvs "time" asAny Json.null
    let vl ← optField kvs "value" asRat
    pure ⟨st, tm, vl⟩
  | _ => none

/-- Serialize an ObjectTimeSeries. -/
def encObjectTimeSeries (o : ObjectTimeSeries) : Json :=
  Json.obj [("time_series_name", encOpt Json.str o.time_series_name),
    ("object_id", encOpt (fun (i : Int) => Json.num (i : Rat)) o.object_id),
    ("object_type", encOpt Json.str o.object_type),
    ("object_name", encOpt Json.str o.object_name),
    ("metrics_code", encOpt Json.str o.metrics_code),
    ("time_series", encList encTimeSeriesValue o.time_series)]

/-- Parse an ObjectTimeSeries. -/
def decObjectTimeSeries : Json → Option ObjectTimeSeries
  | .obj kvs => do
    let nm ← optField kvs "time_series_name" asStr
    let oid ← optField kvs "object_id" asInt
    let oty ← optField kvs "object_type" asStr
    let onm ← optField kvs "object_name" asStr
    let mc ← optField kvs "metrics_code" asStr
    let ts ← fieldD kvs "time_series" (decList decTimeSeriesValue) []
    pure ⟨nm, oid, oty, onm, mc, ts⟩
  | _ => none

/-- Serialize a HydroEvent. -/
def encHydroEvent (e : HydroEvent) : Json :=
  Json.obj [("hydro_event_type", Json.str e.hydro_event_type),
    ("hydro_event_id", encOpt Json.str e.hydro_event_id),
    ("hydro_event_name", encOpt Json.str e.hydro_event_name),
    ("context", encOpt encSimulationContext e.context),
    ("created_time", e.created_time),
    ("auto_schedule_at_step", Json.num (e.auto_schedule_at_step : Rat)),
    ("hydro_event_source_type", encOpt Json.str e.hydro_event_source_type),
    ("hydro_event_source", encOpt Json.str e.hydro_event_source),
    ("hydro_event_description", encOpt Json.str e.hydro_event_description)]

/-- Parse a HydroEvent. -/
def decHydroEvent : Json → Option HydroEvent
  | .obj kvs => do
    let ty ← reqField kvs "hydro_event_type" asStr
    let eid ← optField kvs "hydro_event_id" asStr
    let enm ← optField kvs "hydro_event_name" asStr
    let ctx ← optField kvs "context" decSimulationContext
    let ct ← fieldD kvs "created_time" asAny Json.null
    let sched ← fieldD kvs "auto_schedule_at_step" asInt (-1)
    let sty ← optField kvs "hydro_event_source_type" asStr
    let src ← optField kvs "hydro_event_source" asStr
    let dsc ← optField kvs "hydro_event_description" asStr
    pure ⟨ty, eid, enm, ctx, ct, sched, sty, src, dsc⟩
  | _ => none

/-- Serialize a TimeSeriesDataChangedEvent (its hydro_event_type is the fixed
literal). -/
def encTimeSeriesDataChangedEvent (e : TimeSeriesDataChangedEvent) : Json :=
  Json.obj [("hydro_event_type", Json.str "HYDRO_EVENT_TIME_SERIES_DATA_UPDATED"),
    ("hydro_event_id", encOpt Json.str e.hydro_event_id),
    ("hydro_event_name", encOpt Json.str e.hydro_event_name),
    ("context", encOpt encSimulationContext e.context),
    ("created_time", e.created_time),
    ("auto_schedule_at_step", Json.num (e.auto_schedule_at_step : Rat)),
    ("hydro_event_source_type", encOpt Json.str e.hydro_event_source_type),
    ("hydro_event_source", encOpt Json.str e.hydro_event_source),
    ("hydro_event_description", encOpt Json.str e.hydro_event_description),
    ("object_time_series", encList encObjectTimeSeries e.object_time_series)]

/-- Parse a TimeSeriesDataChangedEvent: the Literal discriminant must match. -/
def decTimeSeriesDataChangedEvent : Json → Option TimeSeriesDataChangedEvent
  | .obj kvs => do
    let ty ← reqField kvs "hydro_event_type" asStr
    if ty = "HYDRO_EVENT_TIME_SERIES_DATA_UPDATED" then
      let eid ← optField kvs "hydro_event_id" asStr
      let enm ← optField kvs "hydro_event_name" asStr
      let ctx ← optField kvs "context" decSimulationContext
      let ct ← fieldD kvs "created_time" asAny Json.null
      let sched ← fieldD kvs "auto_schedule_at_step" asInt (-1)
      let sty ← optField kvs "hydro_event_source_type" asStr
      let src ← optField kvs "hydro_event_source" asStr
      let dsc ← optField kvs "hydro_event_description" asStr
      let ots ← fieldD kvs "object_time_series" (decList decObjectTimeSeries) []
      pure ⟨eid, enm, ctx, ct, sched, sty, src, dsc, ots⟩
    else none
  | _ => none

/-- Serialize a SimTaskInitRequest (model_dump with by_alias=True, as the
publish path does). -/
def encSimTaskInitRequest (c : SimTaskInitRequest) : Json :=
  Json.obj [("command_id", Json.str c.command_id),
    ("command_type", Json.str SIMCMD_TASK_INIT_REQUEST),
    ("context", encSimulationContext c.context),
    ("broadcast", Json.bool c.broadcast),
    ("agent_list", encList encHydroAgent c.agent_list),
    ("biz_scene_configuration_url", encOpt Json.str c.biz_scene_configuration_url)]

/-- Parse the fields of a SimTaskInitRequest. -/
def decSimTaskInitRequest (kvs : List (String × Json)) : Option SimTaskInitRequest := do
  let cid ← reqField kvs "command_id" asStr
  let ctx ← reqField kvs "context" decSimulationContext
  let bc ← fieldD kvs "broadcast" asBool false
  let al ← reqField kvs "agent_list" (decList decHydroAgent)
  let url ← optField kvs "biz_scene_configuration_url" asStr
  pure ⟨cid, ctx, bc, al, url⟩

/-- Serialize a SimTaskInitResponse. -/
def encSimTaskInitResponse (c : SimTaskInitResponse) : Json :=
  Json.obj [("command_id", Json.str c.command_id),
    ("command_type", Json.str SIMCMD_TASK_INIT_RESPONSE),
    ("context", encSimulationContext c.context),
    ("broadcast", Json.bool c.broadcast),
    ("command_status", encOpt encCommandStatus c.command_status),
    ("error_code", encOpt Json.str c.error_code),
    ("error_message", encOpt Json.str c.error_message),
    ("source_agent_instance", encHydroAgentInstance c.source_agent_instance),
    ("created_agent_instances", encList encHydroAgentInstance c.created_agent_instances),
    ("managed_top_objects", encDict (encList encTopHydroObject) c.managed_top_objects)]

/-- Parse the fields of a SimTaskInitResponse. -/
def decSimTaskInitResponse (kvs : List (String × Json)) : Option SimTaskInitResponse := do
  let cid ← reqField kvs "command_id" asStr
  let ctx ← reqField kvs "context" decSimulationContext
  let bc ← fieldD kvs "broadcast" asBool false
  let st ← optField kvs "command_status" decCommandStatus
  let ec ← optField kvs "error_code" asStr
  let em ← optField kvs "error_message" asStr
  let src ← reqField kvs "source_agent_instance" decHydroAgentInstance
  let cai ← reqField kvs "created_agent_instances" (decList decHydroAgentInstance)
  let mto ← reqField kvs "managed_top_objects" (decDict (decList decTopHydroObject))
  pure ⟨cid, ctx, bc, st, ec, em, src, cai, mto⟩

/-- Serialize a SimTaskTerminateRequest. -/
def encSimTaskTerminateRequest (c : SimTaskTerminateRequest) : Json :=
  Json.obj [("command_id", Json.str c.command_id),
    ("command_type", Json.str SIMCMD_TASK_TERMINATE_REQUEST),
    ("context", encSimulationContext c.context),
    ("broadcast", Json.bool c.broadcast),
    ("reason", encOpt Json.str c.reason)]

/-- Parse the fields of a SimTaskTerminateRequest. -/
def decSimTaskTerminateRequest (kvs : List (String × Json)) :
    Option SimTaskTerminateRequest := do
  let cid ← reqField kvs "command_id" asStr
  let ctx ← reqField kvs "context" decSimulationContext
  let bc ← fieldD kvs "broadcast" asBool false
  let rs ← optField kvs "reason" asStr
  pure ⟨cid, ctx, bc, rs⟩

/-- Serialize a SimTaskTerminateResponse. -/
def encSimTaskTerminateResponse (c : SimTaskTerminateResponse) : Json :=
  Json.obj [("command_id", Json.str c.command_id),
    ("command_type", Json.str SIMCMD_TASK_TERMINATE_RESPONSE),
    ("context", encSimulationContext c.context),
    ("broadcast", Json.bool c.broadcast),
    ("command_status", encOpt encCommandStatus c.command_status),
    ("error_code", encOpt Json.str c.error_code),
    ("error_message", encOpt Json.str c.error_message),
    ("source_agent_instance", encHydroAgentInstance c.source_agent_instance)]

/-- Parse the fields of a SimTaskTerminateResponse. -/
def decSimTaskTerminateResponse (kvs : List (String × Json)) :
    Option SimTaskTerminateResponse := do
  let cid ← reqField kvs "command_id" asStr
  let ctx ← reqField kvs "context" decSimulationContext
  let bc ← fieldD kvs "broadcast" asBool false
  let st ← optField kvs "command_status" decCommandStatus
  let ec ← optField kvs "error_code" asStr
  let em ← optField kvs "error_message" asStr
  let src ← reqField kvs "source_agent_instance" decHydroAgentInstance
  pure ⟨cid, ctx, bc, st, ec, em, src⟩

/-- Serialize a TickCmdRequest. -/
def encTickCmdRequest (c : TickCmdRequest) : Json :=
  Json.obj [("command_id", Json.str c.command_id),
    ("command_type", Json.str SIMCMD_TICK_CMD_REQUEST),
    ("context", encSimulationContext c.context),
    ("broadcast", Json.bool c.broadcast),
    ("step", Json.num (c.step : Rat))]

/-- Parse the fields of a TickCmdRequest. -/
def decTickCmdRequest (kvs : List (String × Json)) : Option TickCmdRequest := do
  let cid ← reqField kvs "command_id" asStr
  let ctx ← reqField kvs "context" decSimulationContext
  let bc ← fieldD kvs "broadcast" asBool false
  let st ← reqField kvs "step" asInt
  pure ⟨cid, ctx, bc, st⟩

/-- Serialize a TickCmdResponse. -/
def encTickCmdResponse (c : TickCmdResponse) : Json :=
  Json.obj [("command_id", Json.str c.command_id),
    ("command_type", Json.str SIMCMD_TICK_CMD_RESPONSE),
    ("context", encSimulationContext c.context),
    ("broadcast", Json.bool c.broadcast),
    ("command_status", encOpt encCommandStatus c.command_status),
    ("error_code", encOpt Json.str c.error_code),
    ("error_message", encOpt Json.str c.error_message),
    ("source_agent_instance", encHydroAgentInstance c.source_agent_instance)]

/-- Parse the fields of a TickCmdResponse. -/
def decTickCmdResponse (kvs : List (String × Json)) : Option TickCmdResponse := do
  let cid ← reqField kvs "command_id" asStr
  let ctx ← reqField kvs "context" decSimulationContext
  let bc ← fieldD kvs "broadcast" asBool false
  let st ← optField kvs "command_status" decCommandStatus
  let ec ← optField kvs "error_code" asStr
  let em ← optField kvs "error_message" asStr
  let src ← reqField kvs "source_agent_instance" decHydroAgentInstance
  pure ⟨cid, ctx, bc, st, ec, em, src⟩

/-- Serialize a TimeSeriesCalculationRequest. -/
def encTimeSeriesCalculationRequest (c : TimeSeriesCalculationRequest) : Json :=
  Json.obj [("command_id", Json.str c.command_id),
    ("command_type", Json.str SIMCMD_TIME_SERIES_CALCULATION_REQUEST),
    ("context", encSimulationContext c.context),
    ("broadcast", Json.bool c.broadcast),
    ("target_agent_instance", encHydroAgentInstance c.target_agent_instance),
    ("hydro_event", encHydroEvent c.hydro_event)]

/-- Parse the fields of a TimeSeriesCalculationRequest. -/
def decTimeSeriesCalculationRequest (kvs : List (String × Json)) :
    Option TimeSeriesCalculationRequest := do
  let cid ← reqField kvs "command_id" asStr
  let ctx ← reqField kvs "context" decSimulationContext
  let bc ← fieldD kvs "broadcast" asBool false
  let tgt ← reqField kvs "target_agent_instance" decHydroAgentInstance
  let ev ← reqField kvs "hydro_event" decHydroEvent
  pure ⟨cid, ctx, bc, tgt, ev⟩

/-- Serialize a TimeSeriesCalculationResponse. -/
def encTimeSeriesCalculationResponse (c : TimeSeriesCalculationResponse) : Json :=
  Json.obj [("command_id", Json.str c.command_id),
    ("command_type", Json.str SIMCMD_TIME_SERIES_CALCULATION_RESPONSE),
    ("context", encSimulationContext c.context),
    ("broadcast", Json.bool c.broadcast),
    ("command_status", encOpt encCommandStatus c.command_status),
    ("error_code", encOpt Json.str c.error_code),
    ("error_message", encOpt Json.str c.error_message),
    ("source_agent_instance", encHydroAgentInstance c.source_agent_instance),
    ("hydro_event", encHydroEvent c.hydro_event),
    ("object_time_series_list", encList encObjectTimeSeries c.object_time_series_list)]

/-- Parse the fields of a TimeSeriesCalculationResponse. -/
def decTimeSeriesCalculationResponse (kvs : List (String × Json)) :
    Option TimeSeriesCalculationResponse := do
  let cid ← reqField kvs "command_id" asStr
  let ctx ← reqField kvs "context" decSimulationContext
  let bc ← fieldD kvs "broadcast" asBool false
  let st ← optField kvs "command_status" decCommandStatus
  let ec ← optField kvs "error_code" asStr
  let em ← optField kvs "error_message" asStr
  let src ← reqField kvs "source_agent_instance" decHydroAgentInstance
  let ev ← reqField kvs "hydro_event" decHydroEvent
  let ots ← reqField kvs "object_time_series_list" (decList decObjectTimeSeries)
  pure ⟨cid, ctx, bc, st, ec, em, src, ev, ots⟩

/-- Serialize a TimeSeriesDataUpdateRequest. -/
def encTimeSeriesDataUpdateRequest (c : TimeSeriesDataUpdateRequest) : Json :=
  Json.obj [("command_id", Json.str c.command_id),
    ("command_type", Json.str SIMCMD_TIME_SERIES_DATA_UPDATE_REQUEST),
    ("context", encSimulationContext c.context),
    ("broadcast", Json.bool c.broadcast),
    ("time_series_data_changed_event",
      encTimeSeriesDataChangedEvent c.time_series_data_changed_event)]

/-- Parse the fields of a TimeSeriesDataUpdateRequest. -/
def decTimeSeriesDataUpdateRequest (kvs : List (String × Json)) :
    Option TimeSeriesDataUpdateRequest := do
  let cid ← reqField kvs "command_id" asStr
  let ctx ← reqField kvs "context" decSimulationContext
  let bc ← fieldD kvs "broadcast" asBool false
  let ev ← reqField kvs "time_series_data_changed_event" decTimeSeriesDataChangedEvent
  pure ⟨cid, ctx, bc, ev⟩

/-- Serialize a TimeSeriesDataUpdateResponse. -/
def encTimeSeriesDataUpdateResponse (c : TimeSeriesDataUpdateResponse) : Json :=
  Json.obj [("command_id", Json.str c.command_id),
    ("command_type", Json.str SIMCMD_TIME_SERIES_DATA_UPDATE_RESPONSE),
    ("context", encSimulationContext c.context),
    ("broadcast", Json.bool c.broadcast),
    ("command_status", encOpt encCommandStatus c.command_status),
    ("error_code", encOpt Json.str c.error_code),
    ("error_message", encOpt Json.str c.error_message),
    ("source_agent_instance", encHydroAgentInstance c.source_agent_instance)]

/-- Parse the fields of a TimeSeriesDataUpdateResponse. -/
def decTimeSeriesDataUpdateResponse (kvs : List (String × Json)) :
    Option TimeSeriesDataUpdateResponse := do
  let cid ← reqField kvs "command_id" asStr
  let ctx ← reqField kvs "context" decSimulationContext
  let bc ← fieldD kvs "broadcast" asBool false
  let st ← optField kvs "command_status" decCommandStatus
  let ec ← optField kvs "error_code" asStr
  let em ← optField kvs "error_message" asStr
  let src ← reqField kvs "source_agent_instance" decHydroAgentInstance
  pure ⟨cid, ctx, bc, st, ec, em, src⟩

/-- Serialize an AgentInstanceStatusReport. -/
def encAgentInstanceStatusReport (c : AgentInstanceStatusReport) : Json :=
  Json.obj [("command_id", Json.str c.command_id),
    ("command_type", Json.str SIMCMD_AGENT_INSTANCE_STATUS_REPORT),
    ("context", encSimulationContext c.context),
    ("broadcast", Json.bool c.broadcast),
    ("source_agent_instance", encHydroAgentInstance c.source_agent_instance),
    ("created_state", Json.str c.created_state),
    ("init_result", encOpt (encDict (fun v => v)) c.init_result)]

/-- Parse the fields of an AgentInstanceStatusReport. -/
def decAgentInstanceStatusReport (kvs : List (String × Json)) :
    Option AgentInstanceStatusReport := do
  let cid ← reqField kvs "command_id" asStr
  let ctx ← reqField kvs "context" decSimulationContext
  let bc ← fieldD kvs "broadcast" asBool false
  let src ← reqField kvs "source_agent_instance" decHydroAgentInstance
  let cs ← reqField kvs "created_state" asStr
  let ir ← optField kvs "init_result" (decDict asAny)
  pure ⟨cid, ctx, bc, src, cs, ir⟩

/-- Serialize a ParameterIdentifiedReport. -/
def encParameterIdentifiedReport (c : ParameterIdentifiedReport) : Json :=
  Json.obj [("command_id", Json.str c.command_id),
    ("command_type", Json.str SIMCMD_IDENTIFIED_PARAMS_REPORT),
    ("context", encSimulationContext c.context),
    ("broadcast", Json.bool c.broadcast),
    ("source_agent_instance", encHydroAgentInstance c.source_agent_instance),
    ("recognized_params", encList (encDict (fun v => v)) c.recognized_params)]

/-- Parse the fields of a ParameterIdentifiedReport. -/
def decParameterIdentifiedReport (kvs : List (String × Json)) :
    Option ParameterIdentifiedReport := do
  let cid ← reqField kvs "command_id" asStr
  let ctx ← reqField kvs "context" decSimulationContext
  let bc ← fieldD kvs "broadcast" asBool false
  let src ← reqField kvs "source_agent_instance" decHydroAgentInstance
  let rp ← reqField kvs "recognized_params" (decList (decDict asAny))
  pure ⟨cid, ctx, bc, src, rp⟩

/-- Serialize a HydroAlertUpdatedReport. -/
def encHydroAlertUpdatedReport (c : HydroAlertUpdatedReport) : Json :=
  Json.obj [("command_id", Json.str c.command_id),
    ("command_type", Json.str SIMCMD_HYDRO_ALERT_REPORT),
    ("context", encSimulationContext c.context),
    ("broadcast", Json.bool c.broadcast),
    ("source_agent_instance", encHydroAgentInstance c.source_agent_instance),
    ("hydro_alert_event", encDict (fun v => v) c.hydro_alert_event)]

/-- Parse the fields of a HydroAlertUpdatedReport. -/
def decHydroAlertUpdatedReport (kvs : List (String × Json)) :
    Option HydroAlertUpdatedReport := do
  let cid ← reqField kvs "command_id" asStr
  let ctx ← reqField kvs "context" decSimulationContext
  let bc ← fieldD kvs "broadcast" asBool false
  let src ← reqField kvs "source_agent_instance" decHydroAgentInstance
  let ev ← reqField kvs "hydro_alert_event" (decDict asAny)
  pure ⟨cid, ctx, bc, src, ev⟩

/-- The client's publish serialization, command.model_dump_json(by_alias=True),
as a JSON value. -/
def SimCommandV.model_dump : SimCommandV → Json
  | .taskInitRequest c => encSimTaskInitRequest c
  | .taskInitResponse c => encSimTaskInitResponse c
  | .taskTerminateRequest c => encSimTaskTerminateRequest c
  | .taskTerminateResponse c => encSimTaskTerminateResponse c
  | .tickCmdRequest c => encTickCmdRequest c
  | .tickCmdResponse c => encTickCmdResponse c
  | .timeSeriesCalculationRequest c => encTimeSeriesCalculationRequest c
  | .timeSeriesCalculationResponse c => encTimeSeriesCalculationResponse c
  | .timeSeriesDataUpdateRequest c => encTimeSeriesDataUpdateRequest c
  | .timeSeriesDataUpdateResponse c => encTimeSeriesDataUpdateResponse c
  | .agentInstanceStatusReport c => encAgentInstanceStatusReport c
  | .parameterIdentifiedReport c => encParameterIdentifiedReport c
  | .hydroAlertUpdatedReport c => encHydroAlertUpdatedReport c

/-- The command_type-discriminated variant selection of SimCommandEnvelope. -/
def decCommandByType (ct : String) (kvs : List (String × Json)) : Option SimCommandV :=
  if ct = SIMCMD_TASK_INIT_REQUEST then
    (decSimTaskInitRequest kvs).map SimCommandV.taskInitRequest
  else if ct = SIMCMD_TASK_INIT_RESPONSE then
    (decSimTaskInitResponse kvs).map SimCommandV.taskInitResponse
  else if ct = SIMCMD_TASK_TERMINATE_REQUEST then
    (decSimTaskTerminateRequest kvs).map SimCommandV.taskTerminateRequest
  else if ct = SIMCMD_TASK_TERMINATE_RESPONSE then
    (decSimTaskTerminateResponse kvs).map SimCommandV.taskTerminateResponse
  else if ct = SIMCMD_TICK_CMD_REQUEST then
    (decTickCmdRequest kvs).map SimCommandV.tickCmdRequest
  else if ct = SIMCMD_TICK_CMD_RESPONSE then
    (decTickCmdResponse kvs).map SimCommandV.tickCmdResponse
  else if ct = SIMCMD_TIME_SERIES_CALCULATION_REQUEST then
    (decTimeSeriesCalculationRequest kvs).map SimCommandV.timeSeriesCalculationRequest
  else if ct = SIMCMD_TIME_SERIES_CALCULATION_RESPONSE then
    (decTimeSeriesCalculationResponse kvs).map SimCommandV.timeSeriesCalculationResponse
  else if ct = SIMCMD_TIME_SERIES_DATA_UPDATE_REQUEST then
    (decTimeSeriesDataUpdateRequest kvs).map SimCommandV.timeSeriesDataUpdateRequest
  else if ct = SIMCMD_TIME_SERIES_DATA_UPDATE_RESPONSE then
    (decTimeSeriesDataUpdateResponse kvs).map SimCommandV.timeSeriesDataUpdateResponse
  else if ct = SIMCMD_AGENT_INSTANCE_STATUS_REPORT then
    (decAgentInstanceStatusReport kvs).map SimCommandV.agentInstanceStatusReport
  else if ct = SIMCMD_IDENTIFIED_PARAMS_REPORT then
    (decParameterIdentifiedReport kvs).map SimCommandV.parameterIdentifiedReport
  else if ct = SIMCMD_HYDRO_ALERT_REPORT then
    (decHydroAlertUpdatedReport kvs).map SimCommandV.hydroAlertUpdatedReport
  else none

/-- SimCommandEnvelope: decode a parsed JSON value through the
command_type-discriminated union (as _on_message does). -/
def SimCommandEnvelope.decode (j : Json) : Option SimCommandV :=
  match j with
  | .obj kvs => (reqField kvs "command_type" asStr).bind (fun ct => decCommandByType ct kvs)
  | _ => none

theorem decAll_map {α : Type} (d : Json → Option α) (f : α → Json)
    (hrt : ∀ a, d (f a) = some a) (l : List α) : decAll d (l.map f) = some l := by
  induction l with
  | nil => rfl
  | cons a rest ih => simp [decAll, hrt, ih]

theorem decList_encList {α : Type} (d : Json → Option α) (f : α → Json)
    (hrt : ∀ a, d (f a) = some a) (l : List α) :
    decList d (encList f l) = some l := by
  simp [decList, encList, decAll_map d f hrt]

theorem decAllKV_map {α : Type} (d : Json → Option α) (f : α → Json)
    (hrt : ∀ a, d (f a) = some a) (l : List (String × α)) :
    decAllKV d (l.map (fun p => (p.1, f p.2))) = some l := by
  induction l with
  | nil => rfl
  | cons p rest ih => simp [decAllKV, hrt, ih]

theorem decDict_encDict {α : Type} (d : Json → Option α) (f : α → Json)
    (hrt : ∀ a, d (f a) = some a) (l : List (String × α)) :
    decDict d (encDict f l) = some l := by
  simp [decDict, encDict, decAllKV_map d f hrt]

theorem decOptVal_of_ne_null {α : Type} (d : Json → Option α) (v : Json)
    (h : v ≠ Json.null) : decOptVal d v = (d v).map some := by
  cases v
  · exact absurd rfl h
  all_goals rfl

theorem decOptVal_encOpt {α : Type} (d : Json → Option α) (f : α → Json)
    (hnn : ∀ a, f a ≠ Json.null) (hrt : ∀ a, d (f a) = some a) (o : Option α) :
    decOptVal d (encOpt f o) = some o := by
  cases o with
  | none => rfl
  | some a =>
    rw [show encOpt f (some a) = f a from rfl,
      decOptVal_of_ne_null d (f a) (hnn a), hrt a]
    rfl

theorem decOptVal_str (o : Option String) :
    decOptVal asStr (encOpt Json.str o) = some o :=
  decOptVal_encOpt asStr Json.str (fun _ h => Json.noConfusion h) (fun _ => rfl) o

theorem asInt_encInt (i : Int) : asInt (Json.num (i : Rat)) = some i := by
  simp [asInt, Rat.den_intCast, Rat.num_intCast]

theorem decOptVal_int (o : Option Int) :
    decOptVal asInt (encOpt (fun (i : Int) => Json.num (i : Rat)) o) = some o :=
  decOptVal_encOpt asInt (fun (i : Int) => Json.num (i : Rat))
    (fun _ h => Json.noConfusion h) asInt_encInt o

theorem decOptVal_rat (o : Option Rat) :
    decOptVal asRat (encOpt Json.num o) = some o :=
  decOptVal_encOpt asRat Json.num (fun _ h => Json.noConfusion h) (fun _ => rfl) o

theorem decCommandStatus_enc (s : CommandStatus) :
    decCommandStatus (encCommandStatus s) = some s := by
  cases s <;> rfl

theorem decOptVal_commandStatus (o : Option CommandStatus) :
    decOptVal decCommandStatus (encOpt encCommandStatus o) = some o :=
  decOptVal_encOpt decCommandStatus encCommandStatus
    (fun a => by cases a <;> exact fun h => Json.noConfusion h)
    decCommandStatus_enc o

theorem decAgentBizStatus_enc (s : AgentBizStatus) :
    decAgentBizStatus (encAgentBizStatus s) = some s := by
  cases s <;> rfl

theorem decAgentDriveMode_enc (m : AgentDriveMode) :
    decAgentDriveMode (encAgentDriveMode m) = some m := by
  cases m <;> rfl

theorem decTenant_enc (t : Tenant) : decTenant (encTenant t) = some t := by
  cases t
  simp [encTenant, decTenant, reqField, getField, asStr]

theorem decBizScenario_enc (b : BizScenario) :
    decBizScenario (encBizScenario b) = some b := by
  cases b
  simp [encBizScenario, decBizScenario, reqField, getField, asStr]

theorem decWaterway_enc (w : Waterway) : decWaterway (encWaterway w) = some w := by
  cases w
  simp [encWaterway, decWaterway, reqField, getField, asStr]

theorem decOptVal_tenant (o : Option Tenant) :
    decOptVal decTenant (encOpt encTenant o) = some o :=
  decOptVal_encOpt decTenant encTenant (fun _ h => Json.noConfusion h) decTenant_enc o

theorem decOptVal_bizScenario (o : Option BizScenario) :
    decOptVal decBizScenario (encOpt encBizScenario o) = some o :=
  decOptVal_encOpt decBizScenario encBizScenario (fun _ h => Json.noConfusion h)
    decBizScenario_enc o

theorem decOptVal_waterway (o : Option Waterway) :
    decOptVal decWaterway (encOpt encWaterway o) = some o :=
  decOptVal_encOpt decWaterway encWaterway (fun _ h => Json.noConfusion h)
    decWaterway_enc o

theorem decSimulationContext_enc (c : SimulationContext) :
    decSimulationContext (encSimulationContext c) = some c := by
  cases c
  simp [encSimulationContext, decSimulationContext, reqField, optField, fieldD,
    getField, asStr, asBool, decOptVal_tenant, decOptVal_bizScenario,
    decOptVal_waterway]

theorem decOptVal_simulationContext (o : Option SimulationContext) :
    decOptVal decSimulationContext (encOpt encSimulationContext o) = some o :=
  decOptVal_encOpt decSimulationContext encSimulationContext
    (fun _ h => Json.noConfusion h) decSimulationContext_enc o

theorem decHydroAgent_enc (a : HydroAgent) :
    decHydroAgent (encHydroAgent a) = some a := by
  cases a
  simp [encHydroAgent, decHydroAgent, reqField, optField, getField, asStr,
    decOptVal_str]

theorem decHydroAgentInstance_enc (a : HydroAgentInstance) :
    decHydroAgentInstance (encHydroAgentInstance a) = some a := by
  cases a
  simp [encHydroAgentInstance, decHydroAgentInstance, reqField, optField,
    getField, asStr, decOptVal_str, decSimulationContext_enc,
    decAgentBizStatus_enc, decAgentDriveMode_enc]

theorem decTopHydroObject_enc (o : TopHydroObject) :
    decTopHydroObject (encTopHydroObject o) = some o := by
  cases o
  simp [encTopHydroObject, decTopHydroObject, reqField, fieldD, getField,
    asStr, decDict_encDict asAny (fun v => v) (fun _ => rfl)]

theorem decTimeSeriesValue_enc (v : TimeSeriesValue) :
    decTimeSeriesValue (encTimeSeriesValue v) = some v := by
  cases v
  simp [encTimeSeriesValue, decTimeSeriesValue, optField, fieldD, getField,
    asAny, decOptVal_int, decOptVal_rat]

theorem decObjectTimeSeries_enc (o : ObjectTimeSeries) :
    decObjectTimeSeries (encObjectTimeSeries o) = some o := by
  cases o
  simp [encObjectTimeSeries, decObjectTimeSeries, optField, fieldD, getField,
    asStr, decOptVal_str, decOptVal_int,
    decList_encList decTimeSeriesValue encTimeSeriesValue decTimeSeriesValue_enc]

theorem decHydroEvent_enc (e : HydroEvent) :
    decHydroEvent (encHydroEvent e) = some e := by
  cases e
  simp [encHydroEvent, decHydroEvent, reqField, optField, fieldD, getField,
    asStr, asAny, asInt_encInt, decOptVal_str, decOptVal_simulationContext]

theorem decTimeSeriesDataChangedEvent_enc (e : TimeSeriesDataChangedEvent) :
    decTimeSeriesDataChangedEvent (encTimeSeriesDataChangedEvent e) = some e := by
  cases e
  simp [encTimeSeriesDataChangedEvent, decTimeSeriesDataChangedEvent, reqField,
    optField, fieldD, getField, asStr, asAny, asInt_encInt, decOptVal_str,
    decOptVal_simulationContext,
    decList_encList decObjectTimeSeries encObjectTimeSeries decObjectTimeSeries_enc]

/-- The fields of a JSON object (empty for non-objects). -/
def Json.objFields : Json → List (String × Json)
  | .obj kvs => kvs
  | _ => []

theorem decSimTaskInitRequest_enc (c : SimTaskInitRequest) :
    decSimTaskInitRequest (encSimTaskInitRequest c).objFields = some c := by
  cases c
  simp [encSimTaskInitRequest, decSimTaskInitRequest, Json.objFields, reqField,
    optField, fieldD, getField, asStr, asBool, decOptVal_str,
    decSimulationContext_enc,
    decList_encList decHydroAgent encHydroAgent decHydroAgent_enc]

theorem decSimTaskInitResponse_enc (c : SimTaskInitResponse) :
    decSimTaskInitResponse (encSimTaskInitResponse c).objFields = some c := by
  cases c
  simp [encSimTaskInitResponse, decSimTaskInitResponse, Json.objFields, reqField,
    optField, fieldD, getField, asStr, asBool, decOptVal_str,
    decOptVal_commandStatus, decSimulationContext_enc, decHydroAgentInstance_enc,
    decList_encList decHydroAgentInstance encHydroAgentInstance decHydroAgentInstance_enc,
    decDict_encDict (decList decTopHydroObject) (encList encTopHydroObject)
      (decList_encList decTopHydroObject encTopHydroObject decTopHydroObject_enc)]

theorem decSimTaskTerminateRequest_enc (c : SimTaskTerminateRequest) :
    decSimTaskTerminateRequest (encSimTaskTerminateRequest c).objFields = some c := by
  cases c
  simp [encSimTaskTerminateRequest, decSimTaskTerminateRequest, Json.objFields,
    reqField, optField, fieldD, getField, asStr, asBool, decOptVal_str,
    decSimulationContext_enc]

theorem decSimTaskTerminateResponse_enc (c : SimTaskTerminateResponse) :
    decSimTaskTerminateResponse (encSimTaskTerminateResponse c).objFields = some c := by
  cases c
  simp [encSimTaskTerminateResponse, decSimTaskTerminateResponse, Json.objFields,
    reqField, optField, fieldD, getField, asStr, asBool, decOptVal_str,
    decOptVal_commandStatus, decSimulationContext_enc, decHydroAgentInstance_enc]

theorem decTickCmdRequest_enc (c : TickCmdRequest) :
    decTickCmdRequest (encTickCmdRequest c).objFields = some c := by
  cases c
  simp [encTickCmdRequest, decTickCmdRequest, Json.objFields, reqField, fieldD,
    getField, asStr, asBool, asInt_encInt, decSimulationContext_enc]

theorem decTickCmdResponse_enc (c : TickCmdResponse) :
    decTickCmdResponse (encTickCmdResponse c).objFields = some c := by
  cases c
  simp [encTickCmdResponse, decTickCmdResponse, Json.objFields, reqField,
    optField, fieldD, getField, asStr, asBool, decOptVal_str,
    decOptVal_commandStatus, decSimulationContext_enc, decHydroAgentInstance_enc]

theorem decTimeSeriesCalculationRequest_enc (c : TimeSeriesCalculationRequest) :
    decTimeSeriesCalculationRequest (encTimeSeriesCalculationRequest c).objFields = some c := by
  cases c
  simp [encTimeSeriesCalculationRequest, decTimeSeriesCalculationRequest,
    Json.objFields, reqField, fieldD, getField, asStr, asBool,
    decSimulationContext_enc, decHydroAgentInstance_enc, decHydroEvent_enc]

theorem decTimeSeriesCalculationResponse_enc (c : TimeSeriesCalculationResponse) :
    decTimeSeriesCalculationResponse (encTimeSeriesCalculationResponse c).objFields = some c := by
  cases c
  simp [encTimeSeriesCalculationResponse, decTimeSeriesCalculationResponse,
    Json.objFields, reqField, optField, fieldD, getField, asStr, asBool,
    decOptVal_str, decOptVal_commandStatus, decSimulationContext_enc,
    decHydroAgentInstance_enc, decHydroEvent_enc,
    decList_encList decObjectTimeSeries encObjectTimeSeries decObjectTimeSeries_enc]

theorem decTimeSeriesDataUpdateRequest_enc (c : TimeSeriesDataUpdateRequest) :
    decTimeSeriesDataUpdateRequest (encTimeSeriesDataUpdateRequest c).objFields = some c := by
  cases c
  simp [encTimeSeriesDataUpdateRequest, decTimeSeriesDataUpdateRequest,
    Json.objFields, reqField, fieldD, getField, asStr, asBool,
    decSimulationContext_enc, decTimeSeriesDataChangedEvent_enc]

theorem decTimeSeriesDataUpdateResponse_enc (c : TimeSeriesDataUpdateResponse) :
    decTimeSeriesDataUpdateResponse (encTimeSeriesDataUpdateResponse c).objFields = some c := by
  cases c
  simp [encTimeSeriesDataUpdateResponse, decTimeSeriesDataUpdateResponse,
    Json.objFields, reqField, optField, fieldD, getField, asStr, asBool,
    decOptVal_str, decOptVal_commandStatus, decSimulationContext_enc,
    decHydroAgentInstance_enc]

theorem decAgentInstanceStatusReport_enc (c : AgentInstanceStatusReport) :
    decAgentInstanceStatusReport (encAgentInstanceStatusReport c).objFields = some c := by
  cases c
  simp [encAgentInstanceStatusReport, decAgentInstanceStatusReport,
    Json.objFields, reqField, optField, fieldD, getField, asStr, asBool,
    decSimulationContext_enc, decHydroAgentInstance_enc,
    decOptVal_encOpt (decDict asAny) (encDict (fun v => v))
      (fun _ h => Json.noConfusion h)
      (decDict_encDict asAny (fun v => v) (fun _ => rfl))]

theorem decParameterIdentifiedReport_enc (c : ParameterIdentifiedReport) :
    decParameterIdentifiedReport (encParameterIdentifiedReport c).objFields = some c := by
  cases c
  simp [encParameterIdentifiedReport, decParameterIdentifiedReport,
    Json.objFields, reqField, fieldD, getField, asStr, asBool,
    decSimulationContext_enc, decHydroAgentInstance_enc,
    decList_encList (decDict asAny) (encDict (fun v => v))
      (decDict_encDict asAny (fun v => v) (fun _ => rfl))]

theorem decHydroAlertUpdatedReport_enc (c : HydroAlertUpdatedReport) :
    decHydroAlertUpdatedReport (encHydroAlertUpdatedReport c).objFields = some c := by
  cases c
  simp [encHydroAlertUpdatedReport, decHydroAlertUpdatedReport, Json.objFields,
    reqField, fieldD, getField, asStr, asBool, decSimulationContext_enc,
    decHydroAgentInstance_enc,
    decDict_encDict asAny (fun v => v) (fun _ => rfl)]

/-- Claim C8: serializing any command variant as the client's publish path
does (model_dump with by_alias=True) and decoding the result through
SimCommandEnvelope's command_type-discriminated parsing reproduces the
original command field-for-field. -/
theorem claim_C8_envelope_roundtrip (cmd : SimCommandV) :
    SimCommandEnvelope.decode (SimCommandV.model_dump cmd) = some cmd := by
  cases cmd with
  | taskInitRequest c =>
    have h := decSimTaskInitRequest_enc c
    simp only [encSimTaskInitRequest, Json.objFields,
      SIMCMD_TASK_INIT_REQUEST,
      SIMCMD_TASK_INIT_RESPONSE,
      SIMCMD_TASK_TERMINATE_REQUEST,
      SIMCMD_TASK_TERMINATE_RESPONSE,
      SIMCMD_TICK_CMD_REQUEST,
      SIMCMD_TICK_CMD_RESPONSE,
      SIMCMD_TIME_SERIES_CALCULATION_REQUEST,
      SIMCMD_TIME_SERIES_CALCULATION_RESPONSE,
      SIMCMD_TIME_SERIES_DATA_UPDATE_REQUEST,
      SIMCMD_TIME_SERIES_DATA_UPDATE_RESPONSE,
      SIMCMD_AGENT_INSTANCE_STATUS_REPORT,
      SIMCMD_IDENTIFIED_PARAMS_REPORT,
      SIMCMD_HYDRO_ALERT_REPORT] at h
    simp [SimCommandV.model_dump, SimCommandEnvelope.decode, encSimTaskInitRequest,
      decCommandByType, reqField, getField, asStr,
      SIMCMD_TASK_INIT_REQUEST,
      SIMCMD_TASK_INIT_RESPONSE,
      SIMCMD_TASK_TERMINATE_REQUEST,
      SIMCMD_TASK_TERMINATE_RESPONSE,
      SIMCMD_TICK_CMD_REQUEST,
      SIMCMD_TICK_CMD_RESPONSE,
      SIMCMD_TIME_SERIES_CALCULATION_REQUEST,
      SIMCMD_TIME_SERIES_CALCULATION_RESPONSE,
      SIMCMD_TIME_SERIES_DATA_UPDATE_REQUEST,
      SIMCMD_TIME_SERIES_DATA_UPDATE_RESPONSE,
      SIMCMD_AGENT_INSTANCE_STATUS_REPORT,
      SIMCMD_IDENTIFIED_PARAMS_REPORT,
      SIMCMD_HYDRO_ALERT_REPORT, h]
  | taskInitResponse c =>
    have h := decSimTaskInitResponse_enc c
    simp only [encSimTaskInitResponse, Json.objFields,
      SIMCMD_TASK_INIT_REQUEST,
      SIMCMD_TASK_INIT_RESPONSE,
      SIMCMD_TASK_TERMINATE_REQUEST,
      SIMCMD_TASK_TERMINATE_RESPONSE,
      SIMCMD_TICK_CMD_REQUEST,
      SIMCMD_TICK_CMD_RESPONSE,
      SIMCMD_TIME_SERIES_CALCULATION_REQUEST,
      SIMCMD_TIME_SERIES_CALCULATION_RESPONSE,
      SIMCMD_TIME_SERIES_DATA_UPDATE_REQUEST,
      SIMCMD_TIME_SERIES_DATA_UPDATE_RESPONSE,
      SIMCMD_AGENT_INSTANCE_STATUS_REPORT,
      SIMCMD_IDENTIFIED_PARAMS_REPORT,
      SIMCMD_HYDRO_ALERT_REPORT] at h
    simp [SimCommandV.model_dump, SimCommandEnvelope.decode, encSimTaskInitResponse,
      decCommandByType, reqField, getField, asStr,
      SIMCMD_TASK_INIT_REQUEST,
      SIMCMD_TASK_INIT_RESPONSE,
      SIMCMD_TASK_TERMINATE_REQUEST,
      SIMCMD_TASK_TERMINATE_RESPONSE,
      SIMCMD_TICK_CMD_REQUEST,
      SIMCMD_TICK_CMD_RESPONSE,
      SIMCMD_TIME_SERIES_CALCULATION_REQUEST,
      SIMCMD_TIME_SERIES_CALCULATION_RESPONSE,
      SIMCMD_TIME_SERIES_DATA_UPDATE_REQUEST,
      SIMCMD_TIME_SERIES_DATA_UPDATE_RESPONSE,
      SIMCMD_AGENT_INSTANCE_STATUS_REPORT,
      SIMCMD_IDENTIFIED_PARAMS_REPORT,
      SIMCMD_HYDRO_ALERT_REPORT, h]
  | taskTerminateRequest c =>
    have h := decSimTaskTerminateRequest_enc c
    simp only [encSimTaskTerminateRequest, Json.objFields,
      SIMCMD_TASK_INIT_REQUEST,
      SIMCMD_TASK_INIT_RESPONSE,
      SIMCMD_TASK_TERMINATE_REQUEST,
      SIMCMD_TASK_TERMINATE_RESPONSE,
      SIMCMD_TICK_CMD_REQUEST,
      SIMCMD_TICK_CMD_RESPONSE,
      SIMCMD_TIME_SERIES_CALCULATION_REQUEST,
      SIMCMD_TIME_SERIES_CALCULATION_RESPONSE,
      SIMCMD_TIME_SERIES_DATA_UPDATE_REQUEST,
      SIMCMD_TIME_SERIES_DATA_UPDATE_RESPONSE,
      SIMCMD_AGENT_INSTANCE_STATUS_REPORT,
      SIMCMD_IDENTIFIED_PARAMS_REPORT,
      SIMCMD_HYDRO_ALERT_REPORT] at h
    simp [SimCommandV.model_dump, SimCommandEnvelope.decode, encSimTaskTerminateRequest,
      decCommandByType, reqField, getField, asStr,
      SIMCMD_TASK_INIT_REQUEST,
      SIMCMD_TASK_INIT_RESPONSE,
      SIMCMD_TASK_TERMINATE_REQUEST,
      SIMCMD_TASK_TERMINATE_RESPONSE,
      SIMCMD_TICK_CMD_REQUEST,
      SIMCMD_TICK_CMD_RESPONSE,
      SIMCMD_TIME_SERIES_CALCULATION_REQUEST,
      SIMCMD_TIME_SERIES_CALCULATION_RESPONSE,
      SIMCMD_TIME_SERIES_DATA_UPDATE_REQUEST,
      SIMCMD_TIME_SERIES_DATA_UPDATE_RESPONSE,
      SIMCMD_AGENT_INSTANCE_STATUS_REPORT,
      SIMCMD_IDENTIFIED_PARAMS_REPORT,
      SIMCMD_HYDRO_ALERT_REPORT, h]
  | taskTerminateResponse c =>
    have h := decSimTaskTerminateResponse_enc c
    simp only [encSimTaskTerminateResponse, Json.objFields,
      SIMCMD_TASK_INIT_REQUEST,
      SIMCMD_TASK_INIT_RESPONSE,
      SIMCMD_TASK_TERMINATE_REQUEST,
      SIMCMD_TASK_TERMINATE_RESPONSE,
      SIMCMD_TICK_CMD_REQUEST,
      SIMCMD_TICK_CMD_RESPONSE,
      SIMCMD_TIME_SERIES_CALCULATION_REQUEST,
      SIMCMD_TIME_SERIES_CALCULATION_RESPONSE,
      SIMCMD_TIME_SERIES_DATA_UPDATE_REQUEST,
      SIMCMD_TIME_SERIES_DATA_UPDATE_RESPONSE,
      SIMCMD_AGENT_INSTANCE_STATUS_REPORT,
      SIMCMD_IDENTIFIED_PARAMS_REPORT,
      SIMCMD_HYDRO_ALERT_REPORT] at h
    simp [SimCommandV.model_dump, SimCommandEnvelope.decode, encSimTaskTerminateResponse,
      decCommandByType, reqField, getField, asStr,
      SIMCMD_TASK_INIT_REQUEST,
      SIMCMD_TASK_INIT_RESPONSE,
      SIMCMD_TASK_TERMINATE_REQUEST,
      SIMCMD_TASK_TERMINATE_RESPONSE,
      SIMCMD_TICK_CMD_REQUEST,
      SIMCMD_TICK_CMD_RESPONSE,
      SIMCMD_TIME_SERIES_CALCULATION_REQUEST,
      SIMCMD_TIME_SERIES_CALCULATION_RESPONSE,
      SIMCMD_TIME_SERIES_DATA_UPDATE_REQUEST,
      SIMCMD_TIME_SERIES_DATA_UPDATE_RESPONSE,
      SIMCMD_AGENT_INSTANCE_STATUS_REPORT,
      SIMCMD_IDENTIFIED_PARAMS_REPORT,
      SIMCMD_HYDRO_ALERT_REPORT, h]
  | tickCmdRequest c =>
    have h := decTickCmdRequest_enc c
    simp only [encTickCmdRequest, Json.objFields,
      SIMCMD_TASK_INIT_REQUEST,
      SIMCMD_TASK_INIT_RESPONSE,
      SIMCMD_TASK_TERMINATE_REQUEST,
      SIMCMD_TASK_TERMINATE_RESPONSE,
      SIMCMD_TICK_CMD_REQUEST,
      SIMCMD_TICK_CMD_RESPONSE,
      SIMCMD_TIME_SERIES_CALCULATION_REQUEST,
      SIMCMD_TIME_SERIES_CALCULATION_RESPONSE,
      SIMCMD_TIME_SERIES_DATA_UPDATE_REQUEST,
      SIMCMD_TIME_SERIES_DATA_UPDATE_RESPONSE,
      SIMCMD_AGENT_INSTANCE_STATUS_REPORT,
      SIMCMD_IDENTIFIED_PARAMS_REPORT,
      SIMCMD_HYDRO_ALERT_REPORT] at h
    simp [SimCommandV.model_dump, SimCommandEnvelope.decode, encTickCmdRequest,
      decCommandByType, reqField, getField, asStr,
      SIMCMD_TASK_INIT_REQUEST,
      SIMCMD_TASK_INIT_RESPONSE,
      SIMCMD_TASK_TERMINATE_REQUEST,
      SIMCMD_TASK_TERMINATE_RESPONSE,
      SIMCMD_TICK_CMD_REQUEST,
      SIMCMD_TICK_CMD_RESPONSE,
      SIMCMD_TIME_SERIES_CALCULATION_REQUEST,
      SIMCMD_TIME_SERIES_CALCULATION_RESPONSE,
      SIMCMD_TIME_SERIES_DATA_UPDATE_REQUEST,
      SIMCMD_TIME_SERIES_DATA_UPDATE_RESPONSE,
      SIMCMD_AGENT_INSTANCE_STATUS_REPORT,
      SIMCMD_IDENTIFIED_PARAMS_REPORT,
      SIMCMD_HYDRO_ALERT_REPORT, h]
  | tickCmdResponse c =>
    have h := decTickCmdResponse_enc c
    simp only [encTickCmdResponse, Json.objFields,
      SIMCMD_TASK_INIT_REQUEST,
      SIMCMD_TASK_INIT_RESPONSE,
      SIMCMD_TASK_TERMINATE_REQUEST,
      SIMCMD_TASK_TERMINATE_RESPONSE,
      SIMCMD_TICK_CMD_REQUEST,
      SIMCMD_TICK_CMD_RESPONSE,
      SIMCMD_TIME_SERIES_CALCULATION_REQUEST,
      SIMCMD_TIME_SERIES_CALCULATION_RESPONSE,
      SIMCMD_TIME_SERIES_DATA_UPDATE_REQUEST,
      SIMCMD_TIME_SERIES_DATA_UPDATE_RESPONSE,
      SIMCMD_AGENT_INSTANCE_STATUS_REPORT,
      SIMCMD_IDENTIFIED_PARAMS_REPORT,
      SIMCMD_HYDRO_ALERT_REPORT] at h
    simp [SimCommandV.model_dump, SimCommandEnvelope.decode, encTickCmdResponse,
      decCommandByType, reqField, getField, asStr,
      SIMCMD_TASK_INIT_REQUEST,
      SIMCMD_TASK_INIT_RESPONSE,
      SIMCMD_TASK_TERMINATE_REQUEST,
      SIMCMD_TASK_TERMINATE_RESPONSE,
      SIMCMD_TICK_CMD_REQUEST,
      SIMCMD_TICK_CMD_RESPONSE,
      SIMCMD_TIME_SERIES_CALCULATION_REQUEST,
      SIMCMD_TIME_SERIES_CALCULATION_RESPONSE,
      SIMCMD_TIME_SERIES_DATA_UPDATE_REQUEST,
      SIMCMD_TIME_SERIES_DATA_UPDATE_RESPONSE,
      SIMCMD_AGENT_INSTANCE_STATUS_REPORT,
      SIMCMD_IDENTIFIED_PARAMS_REPORT,
      SIMCMD_HYDRO_ALERT_REPORT, h]
  | timeSeriesCalculationRequest c =>
    have h := decTimeSeriesCalculationRequest_enc c
    simp only [encTimeSeriesCalculationRequest, Json.objFields,
      SIMCMD_TASK_INIT_REQUEST,
      SIMCMD_TASK_INIT_RESPONSE,
      SIMCMD_TASK_TERMINATE_REQUEST,
      SIMCMD_TASK_TERMINATE_RESPONSE,
      SIMCMD_TICK_CMD_REQUEST,
      SIMCMD_TICK_CMD_RESPONSE,
      SIMCMD_TIME_SERIES_CALCULATION_REQUEST,
      SIMCMD_TIME_SERIES_CALCULATION_RESPONSE,
      SIMCMD_TIME_SERIES_DATA_UPDATE_REQUEST,
      SIMCMD_TIME_SERIES_DATA_UPDATE_RESPONSE,
      SIMCMD_AGENT_INSTANCE_STATUS_REPORT,
      SIMCMD_IDENTIFIED_PARAMS_REPORT,
      SIMCMD_HYDRO_ALERT_REPORT] at h
    simp [SimCommandV.model_dump, SimCommandEnvelope.decode, encTimeSeriesCalculationRequest,
      decCommandByType, reqField, getField, asStr,
      SIMCMD_TASK_INIT_REQUEST,
      SIMCMD_TASK_INIT_RESPONSE,
      SIMCMD_TASK_TERMINATE_REQUEST,
      SIMCMD_TASK_TERMINATE_RESPONSE,
      SIMCMD_TICK_CMD_REQUEST,
      SIMCMD_TICK_CMD_RESPONSE,
      SIMCMD_TIME_SERIES_CALCULATION_REQUEST,
      SIMCMD_TIME_SERIES_CALCULATION_RESPONSE,
      SIMCMD_TIME_SERIES_DATA_UPDATE_REQUEST,
      SIMCMD_TIME_SERIES_DATA_UPDATE_RESPONSE,
      SIMCMD_AGENT_INSTANCE_STATUS_REPORT,
      SIMCMD_IDENTIFIED_PARAMS_REPORT,
      SIMCMD_HYDRO_ALERT_REPORT, h]
  | timeSeriesCalculationResponse c =>
    have h := decTimeSeriesCalculationResponse_enc c
    simp only [encTimeSeriesCalculationResponse, Json.objFields,
      SIMCMD_TASK_INIT_REQUEST,
      SIMCMD_TASK_INIT_RESPONSE,
      SIMCMD_TASK_TERMINATE_REQUEST,
      SIMCMD_TASK_TERMINATE_RESPONSE,
      SIMCMD_TICK_CMD_REQUEST,
      SIMCMD_TICK_CMD_RESPONSE,
      SIMCMD_TIME_SERIES_CALCULATION_REQUEST,
      SIMCMD_TIME_SERIES_CALCULATION_RESPONSE,
      SIMCMD_TIME_SERIES_DATA_UPDATE_REQUEST,
      SIMCMD_TIME_SERIES_DATA_UPDATE_RESPONSE,
      SIMCMD_AGENT_INSTANCE_STATUS_REPORT,
      SIMCMD_IDENTIFIED_PARAMS_REPORT,
      SIMCMD_HYDRO_ALERT_REPORT] at h
    simp [SimCommandV.model_dump, SimCommandEnvelope.decode, encTimeSeriesCalculationResponse,
      decCommandByType, reqField, getField, asStr,
      SIMCMD_TASK_INIT_REQUEST,
      SIMCMD_TASK_INIT_RESPONSE,
      SIMCMD_TASK_TERMINATE_REQUEST,
      SIMCMD_TASK_TERMINATE_RESPONSE,
      SIMCMD_TICK_CMD_REQUEST,
      SIMCMD_TICK_CMD_RESPONSE,
      SIMCMD_TIME_SERIES_CALCULATION_REQUEST,
      SIMCMD_TIME_SERIES_CALCULATION_RESPONSE,
      SIMCMD_TIME_SERIES_DATA_UPDATE_REQUEST,
      SIMCMD_TIME_SERIES_DATA_UPDATE_RESPONSE,
      SIMCMD_AGENT_INSTANCE_STATUS_REPORT,
      SIMCMD_IDENTIFIED_PARAMS_REPORT,
      SIMCMD_HYDRO_ALERT_REPORT, h]
  | timeSeriesDataUpdateRequest c =>
    have h := decTimeSeriesDataUpdateRequest_enc c
    simp only [encTimeSeriesDataUpdateRequest, Json.objFields,
      SIMCMD_TASK_INIT_REQUEST,
      SIMCMD_TASK_INIT_RESPONSE,
      SIMCMD_TASK_TERMINATE_REQUEST,
      SIMCMD_TASK_TERMINATE_RESPONSE,
      SIMCMD_TICK_CMD_REQUEST,
      SIMCMD_TICK_CMD_RESPONSE,
      SIMCMD_TIME_SERIES_CALCULATION_REQUEST,
      SIMCMD_TIME_SERIES_CALCULATION_RESPONSE,
      SIMCMD_TIME_SERIES_DATA_UPDATE_REQUEST,
      SIMCMD_TIME_SERIES_DATA_UPDATE_RESPONSE,
      SIMCMD_AGENT_INSTANCE_STATUS_REPORT,
      SIMCMD_IDENTIFIED_PARAMS_REPORT,
      SIMCMD_HYDRO_ALERT_REPORT] at h
    simp [SimCommandV.model_dump, SimCommandEnvelope.decode, encTimeSeriesDataUpdateRequest,
      decCommandByType, reqField, getField, asStr,
      SIMCMD_TASK_INIT_REQUEST,
      SIMCMD_TASK_INIT_RESPONSE,
      SIMCMD_TASK_TERMINATE_REQUEST,
      SIMCMD_TASK_TERMINATE_RESPONSE,
      SIMCMD_TICK_CMD_REQUEST,
      SIMCMD_TICK_CMD_RESPONSE,
      SIMCMD_TIME_SERIES_CALCULATION_REQUEST,
      SIMCMD_TIME_SERIES_CALCULATION_RESPONSE,
      SIMCMD_TIME_SERIES_DATA_UPDATE_REQUEST,
      SIMCMD_TIME_SERIES_DATA_UPDATE_RESPONSE,
      SIMCMD_AGENT_INSTANCE_STATUS_REPORT,
      SIMCMD_IDENTIFIED_PARAMS_REPORT,
      SIMCMD_HYDRO_ALERT_REPORT, h]
  | timeSeriesDataUpdateResponse c =>
    have h := decTimeSeriesDataUpdateResponse_enc c
    simp only [encTimeSeriesDataUpdateResponse, Json.objFields,
      SIMCMD_TASK_INIT_REQUEST,
      SIMCMD_TASK_INIT_RESPONSE,
      SIMCMD_TASK_TERMINATE_REQUEST,
      SIMCMD_TASK_TERMINATE_RESPONSE,
      SIMCMD_TICK_CMD_REQUEST,
      SIMCMD_TICK_CMD_RESPONSE,
      SIMCMD_TIME_SERIES_CALCULATION_REQUEST,
      SIMCMD_TIME_SERIES_CALCULATION_RESPONSE,
      SIMCMD_TIME_SERIES_DATA_UPDATE_REQUEST,
      SIMCMD_TIME_SERIES_DATA_UPDATE_RESPONSE,
      SIMCMD_AGENT_INSTANCE_STATUS_REPORT,
      SIMCMD_IDENTIFIED_PARAMS_REPORT,
      SIMCMD_HYDRO_ALERT_REPORT] at h
    simp [SimCommandV.model_dump, SimCommandEnvelope.decode, encTimeSeriesDataUpdateResponse,
      decCommandByType, reqField, getField, asStr,
      SIMCMD_TASK_INIT_REQUEST,
      SIMCMD_TASK_INIT_RESPONSE,
      SIMCMD_TASK_TERMINATE_REQUEST,
      SIMCMD_TASK_TERMINATE_RESPONSE,
      SIMCMD_TICK_CMD_REQUEST,
      SIMCMD_TICK_CMD_RESPONSE,
      SIMCMD_TIME_SERIES_CALCULATION_REQUEST,
      SIMCMD_TIME_SERIES_CALCULATION_RESPONSE,
      SIMCMD_TIME_SERIES_DATA_UPDATE_REQUEST,
      SIMCMD_TIME_SERIES_DATA_UPDATE_RESPONSE,
      SIMCMD_AGENT_INSTANCE_STATUS_REPORT,
      SIMCMD_IDENTIFIED_PARAMS_REPORT,
      SIMCMD_HYDRO_ALERT_REPORT, h]
  | agentInstanceStatusReport c =>
    have h := decAgentInstanceStatusReport_enc c
    simp only [encAgentInstanceStatusReport, Json.objFields,
      SIMCMD_TASK_INIT_REQUEST,
      SIMCMD_TASK_INIT_RESPONSE,
      SIMCMD_TASK_TERMINATE_REQUEST,
      SIMCMD_TASK_TERMINATE_RESPONSE,
      SIMCMD_TICK_CMD_REQUEST,
      SIMCMD_TICK_CMD_RESPONSE,
      SIMCMD_TIME_SERIES_CALCULATION_REQUEST,
      SIMCMD_TIME_SERIES_CALCULATION_RESPONSE,
      SIMCMD_TIME_SERIES_DATA_UPDATE_REQUEST,
      SIMCMD_TIME_SERIES_DATA_UPDATE_RESPONSE,
      SIMCMD_AGENT_INSTANCE_STATUS_REPORT,
      SIMCMD_IDENTIFIED_PARAMS_REPORT,
      SIMCMD_HYDRO_ALERT_REPORT] at h
    simp [SimCommandV.model_dump, SimCommandEnvelope.decode, encAgentInstanceStatusReport,
      decCommandByType, reqField, getField, asStr,
      SIMCMD_TASK_INIT_REQUEST,
      SIMCMD_TASK_INIT_RESPONSE,
      SIMCMD_TASK_TERMINATE_REQUEST,
      SIMCMD_TASK_TERMINATE_RESPONSE,
      SIMCMD_TICK_CMD_REQUEST,
      SIMCMD_TICK_CMD_RESPONSE,
      SIMCMD_TIME_SERIES_CALCULATION_REQUEST,
      SIMCMD_TIME_SERIES_CALCULATION_RESPONSE,
      SIMCMD_TIME_SERIES_DATA_UPDATE_REQUEST,
      SIMCMD_TIME_SERIES_DATA_UPDATE_RESPONSE,
      SIMCMD_AGENT_INSTANCE_STATUS_REPORT,
      SIMCMD_IDENTIFIED_PARAMS_REPORT,
      SIMCMD_HYDRO_ALERT_REPORT, h]
  | parameterIdentifiedReport c =>
    have h := decParameterIdentifiedReport_enc c
    simp only [encParameterIdentifiedReport, Json.objFields,
      SIMCMD_TASK_INIT_REQUEST,
      SIMCMD_TASK_INIT_RESPONSE,
      SIMCMD_TASK_TERMINATE_REQUEST,
      SIMCMD_TASK_TERMINATE_RESPONSE,
      SIMCMD_TICK_CMD_REQUEST,
      SIMCMD_TICK_CMD_RESPONSE,
      SIMCMD_TIME_SERIES_CALCULATION_REQUEST,
      SIMCMD_TIME_SERIES_CALCULATION_RESPONSE,
      SIMCMD_TIME_SERIES_DATA_UPDATE_REQUEST,
      SIMCMD_TIME_SERIES_DATA_UPDATE_RESPONSE,
      SIMCMD_AGENT_INSTANCE_STATUS_REPORT,
      SIMCMD_IDENTIFIED_PARAMS_REPORT,
      SIMCMD_HYDRO_ALERT_REPORT] at h
    simp [SimCommandV.model_dump, SimCommandEnvelope.decode, encParameterIdentifiedReport,
      decCommandByType, reqField, getField, asStr,
      SIMCMD_TASK_INIT_REQUEST,
      SIMCMD_TASK_INIT_RESPONSE,
      SIMCMD_TASK_TERMINATE_REQUEST,
      SIMCMD_TASK_TERMINATE_RESPONSE,
      SIMCMD_TICK_CMD_REQUEST,
      SIMCMD_TICK_CMD_RESPONSE,
      SIMCMD_TIME_SERIES_CALCULATION_REQUEST,
      SIMCMD_TIME_SERIES_CALCULATION_RESPONSE,
      SIMCMD_TIME_SERIES_DATA_UPDATE_REQUEST,
      SIMCMD_TIME_SERIES_DATA_UPDATE_RESPONSE,
      SIMCMD_AGENT_INSTANCE_STATUS_REPORT,
      SIMCMD_IDENTIFIED_PARAMS_REPORT,
      SIMCMD_HYDRO_ALERT_REPORT, h]
  | hydroAlertUpdatedReport c =>
    have h := decHydroAlertUpdatedReport_enc c
    simp only [encHydroAlertUpdatedReport, Json.objFields,
      SIMCMD_TASK_INIT_REQUEST,
      SIMCMD_TASK_INIT_RESPONSE,
      SIMCMD_TASK_TERMINATE_REQUEST,
      SIMCMD_TASK_TERMINATE_RESPONSE,
      SIMCMD_TICK_CMD_REQUEST,
      SIMCMD_TICK_CMD_RESPONSE,
      SIMCMD_TIME_SERIES_CALCULATION_REQUEST,
      SIMCMD_TIME_SERIES_CALCULATION_RESPONSE,
      SIMCMD_TIME_SERIES_DATA_UPDATE_REQUEST,
      SIMCMD_TIME_SERIES_DATA_UPDATE_RESPONSE,
      SIMCMD_AGENT_INSTANCE_STATUS_REPORT,
      SIMCMD_IDENTIFIED_PARAMS_REPORT,
      SIMCMD_HYDRO_ALERT_REPORT] at h
    simp [SimCommandV.model_dump, SimCommandEnvelope.decode, encHydroAlertUpdatedReport,
      decCommandByType, reqField, getField, asStr,
      SIMCMD_TASK_INIT_REQUEST,
      SIMCMD_TASK_INIT_RESPONSE,
      SIMCMD_TASK_TERMINATE_REQUEST,
      SIMCMD_TASK_TERMINATE_RESPONSE,
      SIMCMD_TICK_CMD_REQUEST,
      SIMCMD_TICK_CMD_RESPONSE,
      SIMCMD_TIME_SERIES_CALCULATION_REQUEST,
      SIMCMD_TIME_SERIES_CALCULATION_RESPONSE,
      SIMCMD_TIME_SERIES_DATA_UPDATE_REQUEST,
      SIMCMD_TIME_SERIES_DATA_UPDATE_RESPONSE,
      SIMCMD_AGENT_INSTANCE_STATUS_REPORT,
      SIMCMD_IDENTIFIED_PARAMS_REPORT,
      SIMCMD_HYDRO_ALERT_REPORT, h]
